import Mathlib

/-!
Verification development for the lensroom-workflow-editor inference core.

The definitions below are a shallow embedding of the orchestration and
consistency logic of the repository:

* the credit ledger, from the SQL migration (tables `credits` and
  `credit_transactions`, RPC functions `adjust_credits` and
  `get_user_balance`) and the server client `src/lib/supabase/server.ts`;
* the degraded-mode guard, from `src/lib/supabase/fallback.ts`
  (`SupabaseUnavailableError`, `wrapSupabaseOperation`, the `try*` helpers);
* the generation record store, from `src/lib/generations/db.ts`;
* the durable asset store, from `src/lib/storage/upload.ts`;
* the model catalog, from `src/config/modelRegistry.ts`;
* the orchestrator, from the `POST /api/infer` route handler (the
  fallback-aware version that supports `INFER_SUPABASE_OPTIONAL`).

The world threaded through the orchestrator models the rows belonging to
the single caller identity of one request (all claims under scrutiny are
about a single request / identity); external collaborators (auth, the
Kie.ai provider, the Anthropic API, byte downloads) are oracles supplied
as inputs.  JavaScript exceptions are modelled as explicit error values,
`NextResponse.json(...)` returns as explicit response values.
-/

namespace LensRoom

/-! ## String helpers

`strContains` models JavaScript `String.prototype.includes` (substring
containment); `isValidUuid` models the UUID regular expression
`/^[0-9a-f]{8}-...-[0-9a-f]{12}$/i` used for `TEST_USER_ID` validation. -/

def strContains (s sub : String) : Bool :=
  decide (sub.data <:+: s.data)

def isHexChar (c : Char) : Bool :=
  c.isDigit || ('a' ≤ c && c ≤ 'f') || ('A' ≤ c && c ≤ 'F')

def isValidUuid (s : String) : Bool :=
  match s.splitOn "-" with
  | [a, b, c, d, e] =>
      a.length == 8 && b.length == 4 && c.length == 4 && d.length == 4 &&
      e.length == 12 && (a ++ b ++ c ++ d ++ e).all isHexChar
  | _ => false

/-! ## Credit ledger

From `sql/0001_credits_and_generations.sql`.  The `credits` table holds at
most one row per identity (`user_id UNIQUE`); we model the row of the one
identity in play as `Option Int` (`none` = row not yet materialized).
`credit_transactions` rows for that identity are kept in insertion order. -/

structure CreditTxn where
  amount : Int
  txnType : String
  description : Option String
  generation_id : Option String
deriving DecidableEq, Repr

structure Ledger where
  account : Option Int
  transactions : List CreditTxn
deriving DecidableEq, Repr

/-- The balance the SQL reads for the identity (`0` when the row is absent,
matching both first-use materialization at `0` and `COALESCE(v_balance, 0)`). -/
def ledgerBalance (st : Ledger) : Int :=
  st.account.getD 0

inductive AdjustOutcome where
  | success (new_balance : Int)
  | insufficient (current_balance : Int)
deriving DecidableEq, Repr

/-- RPC `public.adjust_credits`: materialize the row (`INSERT ... ON CONFLICT
DO NOTHING`), read the current balance under lock, compute
`v_new_balance := v_current_balance + p_amount`, reject when
`p_amount < 0 AND v_new_balance < 0` (no balance update, no transaction
row), otherwise update the balance and insert exactly one transaction row. -/
def adjust_credits (st : Ledger) (p_amount : Int) (p_type : String)
    (p_description : Option String) (p_generation_id : Option String) :
    Ledger × AdjustOutcome :=
  let v_current_balance : Int := st.account.getD 0
  let v_new_balance : Int := v_current_balance + p_amount
  if p_amount < 0 ∧ v_new_balance < 0 then
    ({ st with account := some v_current_balance }, .insufficient v_current_balance)
  else
    ({ account := some v_new_balance,
       transactions := st.transactions ++
         [{ amount := p_amount, txnType := p_type,
            description := p_description, generation_id := p_generation_id }] },
     .success v_new_balance)

/-- RPC `public.get_user_balance`: return the row's amount, auto-creating the
row with balance `0` when absent. -/
def get_user_balance (st : Ledger) : Ledger × Int :=
  match st.account with
  | some v => (st, v)
  | none => ({ st with account := some 0 }, 0)

/-- One call in a sequence of `adjust_credits` invocations. -/
structure AdjustCall where
  amount : Int
  txnType : String
  description : Option String
  generation_id : Option String
deriving DecidableEq, Repr

/-- Run a sequence of `adjust_credits` calls against one identity's ledger. -/
def runAdjusts (st : Ledger) : List AdjustCall → Ledger
  | [] => st
  | c :: cs => runAdjusts (adjust_credits st c.amount c.txnType c.description c.generation_id).1 cs

/-- `adjustCredits` from `src/lib/supabase/server.ts`: calls the RPC and
throws `Error(result.error)` — the SQL rejection message is exactly
`"Insufficient credits"` — when `result.success` is false. -/
def adjustCredits (st : Ledger) (amount : Int) (ty : String)
    (description : Option String) (generationId : Option String) :
    Ledger × Except String Int :=
  match adjust_credits st amount ty description generationId with
  | (st', .success nb) => (st', .ok nb)
  | (st', .insufficient _) => (st', .error "Insufficient credits")

/-! ## Degraded-mode guard

From `src/lib/supabase/fallback.ts`. -/

inductive SbReason where
  | missing_env
  | network_error
  | auth_error
  | other
deriving DecidableEq, Repr

/-- `SupabaseUnavailableError` (message plus classified reason). -/
structure SbUnavailable where
  message : String
  reason : SbReason
deriving DecidableEq, Repr

/-- What a wrapped Supabase operation can throw: an already-classified
`SupabaseUnavailableError`, or a plain JavaScript `Error` with a message. -/
inductive OpThrow where
  | sbUnavailable (e : SbUnavailable)
  | jsError (message : String)
deriving DecidableEq, Repr

/-- The `catch` block of `wrapSupabaseOperation`: classify a plain error's
message by substring matching into `network_error` / `auth_error` / `other`. -/
def classifyError (operationName msg : String) : SbUnavailable :=
  if strContains msg "fetch" || strContains msg "network" ||
      strContains msg "ECONNREFUSED" || strContains msg "ENOTFOUND" ||
      strContains msg "timeout" then
    { message := "Network error during " ++ operationName ++ ": " ++ msg,
      reason := .network_error }
  else if strContains msg "auth" || strContains msg "unauthorized" ||
      strContains msg "JWT" then
    { message := "Auth error during " ++ operationName ++ ": " ++ msg,
      reason := .auth_error }
  else
    { message := "Error during " ++ operationName ++ ": " ++ msg, reason := .other }

/-- `wrapSupabaseOperation`: check the Supabase env vars first
(`checkSupabaseEnv` throws `missing_env` when they are absent), re-throw a
`SupabaseUnavailableError` unchanged, and classify every other thrown error.
The operation's result is passed in already evaluated; the env check
guards it at every call site below. -/
def wrapSupabaseOperation {α : Type} (sbEnvConfigured : Bool)
    (operationName : String) (result : Except OpThrow α) :
    Except SbUnavailable α :=
  if ¬ sbEnvConfigured then
    .error { message := "Supabase environment variables not configured",
             reason := .missing_env }
  else
    match result with
    | .ok a => .ok a
    | .error (.sbUnavailable e) => .error e
    | .error (.jsError m) => .error (classifyError operationName m)

/-! ## Generation record store

From `src/lib/generations/db.ts` and the `generations` table of the SQL
migration.  `metadata` is a `jsonb` column; we model JSON values
structurally. -/

inductive Json where
  | null
  | bool (b : Bool)
  | num (n : Int)
  | str (s : String)
  | arr (elems : List Json)
  | obj (fields : List (String × Json))

structure Generation where
  id : String
  user_id : String
  genType : String
  model : String
  prompt : String
  status : String
  result_urls : List String
  credits_used : Int
  metadata : Json
  created_at : Int
  updated_at : Int

/-- `createGeneration`: insert a row with status `"processing"`; the insert
fails (PostgREST error, re-thrown as a plain `Error`) when the primary key
already exists. -/
def createGeneration (gens : List Generation) (userId generationId gtype model prompt : String)
    (creditsUsed : Int) (metadata : Json) (now : Int) :
    Except OpThrow (List Generation × Generation) :=
  if gens.any (fun g => g.id == generationId) then
    .error (.jsError "Failed to create generation: duplicate key value violates unique constraint")
  else
    let g : Generation :=
      { id := generationId, user_id := userId, genType := gtype, model := model,
        prompt := prompt, status := "processing", result_urls := [],
        credits_used := creditsUsed, metadata := metadata,
        created_at := now, updated_at := now }
    .ok (gens ++ [g], g)

/-- `updateGenerationSuccess`: `UPDATE generations SET status, result_urls,
metadata, updated_at WHERE id = generationId`.  The `metadata` column is
assigned wholesale (no merge with the previous value). -/
def updateGenerationSuccess (gens : List Generation) (generationId : String)
    (resultUrls : List String) (metadata : Json) (now : Int) : List Generation :=
  gens.map (fun g =>
    if g.id == generationId then
      { g with status := "success", result_urls := resultUrls,
               metadata := metadata, updated_at := now }
    else g)

/-- `updateGenerationFailed`: `UPDATE generations SET status = 'failed',
metadata = json with the single field error, updated_at WHERE id = ...`. -/
def updateGenerationFailed (gens : List Generation) (generationId errorMessage : String)
    (now : Int) : List Generation :=
  gens.map (fun g =>
    if g.id == generationId then
      { g with status := "failed",
               metadata := .obj [("error", .str errorMessage)], updated_at := now }
    else g)

/-! ## Durable asset store

From `src/lib/storage/upload.ts`.  Object contents are represented by the
source URL whose bytes were fetched. -/

structure StorageObject where
  path : String
  content : String
deriving DecidableEq, Repr

structure StorageState where
  objects : List StorageObject
deriving DecidableEq, Repr

def storagePut (st : StorageState) (path content : String) : StorageState :=
  if st.objects.any (fun o => o.path == path) then
    { objects := st.objects.map (fun o =>
        if o.path == path then { path := path, content := content } else o) }
  else
    { objects := st.objects ++ [{ path := path, content := content }] }

/-- `supabase.storage.from("generations").upload(filePath, buffer, opts)`:
errors with "already exists" when the path is taken and `upsert` is off;
with `upsert: true` it overwrites. -/
def storageUpload (st : StorageState) (path content : String) (upsert : Bool) :
    Except OpThrow StorageState :=
  if st.objects.any (fun o => o.path == path) && ¬ upsert then
    .error (.jsError "Failed to upload to storage: The resource already exists")
  else
    .ok (storagePut st path content)

/-- `getPublicUrl` is a pure function of the path. -/
def getPublicUrl (path : String) : String :=
  "https://supabase.example/storage/v1/object/public/generations/" ++ path

/-- `uploadGenerationToStorage userId generationId imageUrl type`: download
the bytes from `imageUrl` (throws on a non-ok fetch), upload them under
`userId/type/generationId.png` with `upsert: true`, and return the public
URL of that path.  `fetchOk` is the oracle for the external download. -/
def uploadGenerationToStorage (st : StorageState) (fetchOk : String → Bool)
    (userId generationId imageUrl gtype : String) :
    Except OpThrow (StorageState × String) :=
  if ¬ fetchOk imageUrl then
    .error (.jsError "Failed to download image: Not Found")
  else
    let filePath := userId ++ "/" ++ gtype ++ "/" ++ generationId ++ ".png"
    match storageUpload st filePath imageUrl true with
    | .error e => .error e
    | .ok st' => .ok (st', getPublicUrl filePath)

/-! ## Model catalog

From `src/config/modelRegistry.ts` (the `paramsSchema` column is UI-only
metadata and plays no role in orchestration, so it is omitted). -/

structure ModelDef where
  id : String
  title : String
  provider : String
  capability : String
  enabled : Bool
  creditCost : Int
  kieModel : Option String
  kieProvider : Option String
deriving DecidableEq, Repr

def MODEL_REGISTRY : List ModelDef :=
  [ { id := "anthropic_text", title := "Anthropic (Text)", provider := "anthropic",
      capability := "text", enabled := true, creditCost := 2,
      kieModel := none, kieProvider := none },
    { id := "seedream_image", title := "Seedream (Image)", provider := "kie-market",
      capability := "image", enabled := true, creditCost := 8,
      kieModel := some "bytedance/seedream", kieProvider := some "market" },
    { id := "nano_banana_edit", title := "Nano Banana Edit (Image)", provider := "kie-market",
      capability := "edit", enabled := true, creditCost := 8,
      kieModel := some "google/nano-banana-edit", kieProvider := some "market" },
    { id := "veo3_video", title := "Veo 3.1 (Video)", provider := "kie-veo",
      capability := "video", enabled := true, creditCost := 25,
      kieModel := some "veo3", kieProvider := some "veo" },
    { id := "midjourney_image", title := "Midjourney (Image)", provider := "kie-market",
      capability := "image", enabled := false, creditCost := 10,
      kieModel := some "midjourney/v6", kieProvider := some "market" } ]

def getModelById (id : String) : Option ModelDef :=
  MODEL_REGISTRY.find? (fun m => m.id == id)

/-! ## Orchestrator: `POST /api/infer`

Shallow embedding of the fallback-aware route handler
(`src/app/api/infer/route.ts`, the version importing
`@/lib/supabase/fallback`).  One request is a straight-line pipeline over a
`World` holding the caller's ledger rows, generation records, storage
objects, and an event trace recording the externally observable side
effects in program order. -/

/-- Environment/configuration of one request (process env plus the
availability of the Supabase backend). -/
structure EnvConfig where
  supabaseOptional : Bool
  allowAnonInfer : Bool
  testUserId : Option String
  useMockInference : Bool
  anthropicApiKey : Option String
  anthropicModelEnv : Option String
  kieApiKey : Option String
  sbEnvConfigured : Bool
  sbReachable : Bool
  sbNetworkErrMsg : String

/-- Outcome of `getUserId(request)`: a resolved id (or `null`), or a thrown
error (e.g. the missing `NEXT_PUBLIC_SUPABASE_URL` config error). -/
inductive AuthOutcome where
  | ok (userId : Option String)
  | threw (message : String)

/-- The parsed request body.  JavaScript falsiness of `modelId` /
`inputs.prompt` / `inputs.imageUrl` is the empty string / `none`. -/
structure InferRequestBody where
  modelId : String
  prompt : String
  imageUrl : Option String
  paramsJson : Json
  outputsCount : Option Int

/-- Result of one Kie.ai provider invocation (`inferMarket` / `inferVeo`):
either a terminal result (the clients only return non-empty URL lists) or a
thrown `KieApiError`. -/
inductive KieOutcome where
  | ok (urls : List String) (taskId : String) (duration : Int)
  | apiError (message : String) (statusCode : Int)

/-- Oracles for the external collaborators of one request. -/
structure ProviderEnv where
  kie : Nat → KieOutcome
  anthropic : Except String String
  anthropicDuration : Int
  batchWallMs : Int
  fetchOk : String → Bool
  mockTaskId : String

/-- Externally observable side effects, in program order. -/
inductive Event where
  | balanceChecked (balance : Int)
  | recordCreated (generationId : String)
  | debitAttempted (amount : Int)
  | debitLogged (generationId : String) (amount : Int)
  | kieTaskStarted (variant : Nat)
  | anthropicCalled
  | storedObject (path : String)
  | recordMarkedSuccess (generationId : String)
  | recordMarkedFailed (generationId : String)
deriving DecidableEq, Repr

structure World where
  ledger : Ledger
  gens : List Generation
  storage : StorageState
  events : List Event

/-- The `meta` object of a JSON response. -/
structure MetaInfo where
  modelId : String
  provider : Option String
  generationId : Option String
  taskIds : List String
  duration : Int
  outputsCountM : Option Int
  succeededCount : Option Int
  failedCount : Option Int
  mock : Bool
  supabaseSkipped : Bool
  skipReason : Option SbReason
deriving DecidableEq, Repr

/-- A rendered `NextResponse.json<InferResponse>(body, { status })`. -/
structure InferResponse where
  status : Int
  success : Bool
  urls : Option (List String)
  text : Option String
  error : Option String
  newBalance : Option Int
  meta : Option MetaInfo
deriving DecidableEq, Repr

def errResponse (status : Int) (msg : String) : InferResponse :=
  { status := status, success := false, urls := none, text := none,
    error := some msg, newBalance := none, meta := none }

/-- An exception propagating towards the route's outer `catch`. -/
inductive ThrownError where
  | kieApi (message : String) (statusCode : Int)
  | sbUnavailable (e : SbUnavailable)
  | js (message : String)

def ThrownError.message : ThrownError → String
  | .kieApi m _ => m
  | .sbUnavailable e => e.message
  | .js m => m

/-- Control flow of a pipeline fragment: continue with a value, return a
response directly (a `return NextResponse...` — skips the outer catch), or
raise an exception (caught by the outer catch). -/
inductive Flow (α : Type) where
  | next (w : World) (a : α)
  | respond (w : World) (r : InferResponse)
  | raise (w : World) (e : ThrownError)

/-- JavaScript falsiness of a `string | null | undefined` value. -/
def jsFalsyOpt (s : Option String) : Bool :=
  match s with
  | none => true
  | some t => t == ""

/-- Run one Supabase operation under `wrapSupabaseOperation`: the env check
comes first (the operation does not run when env vars are missing), a
network-level failure of the Supabase client surfaces as a thrown error
with the configured message, and otherwise the operation runs against the
world and its thrown errors are classified. -/
def runSbOp {α : Type} (cfg : EnvConfig) (operationName : String) (w : World)
    (op : World → World × Except OpThrow α) : World × Except SbUnavailable α :=
  if ¬ cfg.sbEnvConfigured then
    (w, wrapSupabaseOperation false operationName (Except.error (.jsError "") : Except OpThrow α))
  else if ¬ cfg.sbReachable then
    (w, wrapSupabaseOperation true operationName
          (Except.error (.jsError cfg.sbNetworkErrMsg) : Except OpThrow α))
  else
    let (w', r) := op w
    (w', wrapSupabaseOperation true operationName r)

/-- `tryGetBalance` from `fallback.ts`: `null` user short-circuits to `null`;
otherwise `getUserBalance` (the `get_user_balance` RPC) runs wrapped. -/
def tryGetBalance (cfg : EnvConfig) (userId : Option String) (w : World) :
    World × Except SbUnavailable (Option Int) :=
  match userId with
  | none => (w, .ok none)
  | some _uid =>
      match runSbOp cfg "getUserBalance" w (fun w =>
        let p := get_user_balance w.ledger
        ({ w with ledger := p.1, events := w.events ++ [.balanceChecked p.2] },
         .ok p.2)) with
      | (w', .ok b) => (w', .ok (some b))
      | (w', .error e) => (w', .error e)

/-- `tryAdjustCredits`: `null` user short-circuits to `null`; otherwise
`adjustCredits` runs wrapped — in particular its thrown
`Error("Insufficient credits")` is classified by `wrapSupabaseOperation`. -/
def tryAdjustCredits (cfg : EnvConfig) (userId : Option String) (amount : Int)
    (ty descr : String) (generationId : Option String) (w : World) :
    World × Except SbUnavailable (Option Int) :=
  match userId with
  | none => (w, .ok none)
  | some _uid =>
      match runSbOp cfg "adjustCredits" w (fun w =>
        let w0 := { w with events := w.events ++ [Event.debitAttempted amount] }
        match adjustCredits w0.ledger amount ty (some descr) generationId with
        | (l', .ok nb) =>
            ({ w0 with
                 ledger := l',
                 events := w0.events ++ [Event.debitLogged (generationId.getD "") amount] },
             .ok nb)
        | (l', .error m) => ({ w0 with ledger := l' }, .error (.jsError m))) with
      | (w', .ok nb) => (w', .ok (some nb))
      | (w', .error e) => (w', .error e)

/-- `tryCreateGeneration`: `null` user short-circuits; otherwise
`createGeneration` runs wrapped. -/
def tryCreateGeneration (cfg : EnvConfig) (userId : Option String)
    (generationId gtype model prompt : String) (creditsUsed : Int)
    (metadata : Json) (now : Int) (w : World) :
    World × Except SbUnavailable Unit :=
  match userId with
  | none => (w, .ok ())
  | some uid =>
      runSbOp cfg "createGeneration" w (fun w =>
        match createGeneration w.gens uid generationId gtype model prompt
            creditsUsed metadata now with
        | .ok p =>
            ({ w with
                 gens := p.1,
                 events := w.events ++ [.recordCreated generationId] },
             .ok ())
        | .error e => (w, .error e))

/-- `tryUpdateGenerationSuccess`: missing generation id short-circuits. -/
def tryUpdateGenerationSuccess (cfg : EnvConfig) (generationId : Option String)
    (resultUrls : List String) (metadata : Json) (now : Int) (w : World) :
    World × Except SbUnavailable Unit :=
  match generationId with
  | none => (w, .ok ())
  | some gid =>
      runSbOp cfg "updateGenerationSuccess" w (fun w =>
        ({ w with
             gens := updateGenerationSuccess w.gens gid resultUrls metadata now,
             events := w.events ++ [.recordMarkedSuccess gid] }, .ok ()))

/-- `tryUpdateGenerationFailed`: missing generation id short-circuits. -/
def tryUpdateGenerationFailed (cfg : EnvConfig) (generationId : Option String)
    (errorMessage : String) (now : Int) (w : World) :
    World × Except SbUnavailable Unit :=
  match generationId with
  | none => (w, .ok ())
  | some gid =>
      runSbOp cfg "updateGenerationFailed" w (fun w =>
        ({ w with
             gens := updateGenerationFailed w.gens gid errorMessage now,
             events := w.events ++ [.recordMarkedFailed gid] }, .ok ()))

/-- `tryUploadToStorage`: `null` user or generation id short-circuits to
`null`; otherwise `uploadGenerationToStorage` runs wrapped. -/
def tryUploadToStorage (cfg : EnvConfig) (prov : ProviderEnv)
    (userId : Option String) (generationId : Option String)
    (imageUrl gtype : String) (w : World) :
    World × Except SbUnavailable (Option String) :=
  match userId, generationId with
  | some uid, some gid =>
      (match runSbOp cfg "uploadToStorage" w (fun w =>
        match uploadGenerationToStorage w.storage prov.fetchOk uid gid imageUrl gtype with
        | .ok p =>
            ({ w with
                 storage := p.1,
                 events := w.events ++
                   [.storedObject (uid ++ "/" ++ gtype ++ "/" ++ gid ++ ".png")] },
             .ok p.2)
        | .error e => (w, .error e)) with
      | (w', .ok u) => (w', .ok (some u))
      | (w', .error e) => (w', .error e))
  | _, _ => (w, .ok none)

/-! ### Route steps -/

/-- Step 1 (AUTH): `getUserId` may throw; when `INFER_SUPABASE_OPTIONAL` is
on and the error mentions the missing `NEXT_PUBLIC_SUPABASE_URL` env var,
the route continues with a `null` user; otherwise the error re-throws. -/
def step1Auth (cfg : EnvConfig) (auth : AuthOutcome) :
    Except ThrownError (Option String) :=
  match auth with
  | .ok uid => .ok uid
  | .threw msg =>
      if cfg.supabaseOptional && strContains msg "NEXT_PUBLIC_SUPABASE_URL" then
        .ok none
      else
        .error (.js msg)

/-- DEV-MODE fallback: when there is no session user, use a configured
`TEST_USER_ID` (after UUID validation), else fail 401 unless Supabase is
optional. -/
def stepDevMode (cfg : EnvConfig) (userId : Option String) :
    Except InferResponse (Option String) :=
  if ¬ jsFalsyOpt userId then .ok userId
  else
    let testOk := cfg.allowAnonInfer &&
      (match cfg.testUserId with | some t => ¬ (t == "") | none => false)
    if testOk then
      match cfg.testUserId with
      | some t =>
          if ¬ isValidUuid t then
            .error (errResponse 500 "Invalid TEST_USER_ID configuration")
          else .ok (some t)
      | none => .ok none
    else if ¬ cfg.supabaseOptional then
      .error (errResponse 401
        "Требуется вход. Выполните авторизацию или включите тестовый режим (ALLOW_ANON_INFER=true).")
    else .ok none

/-- `mockInfer` from the Kie client: a synthetic URL chosen by model id. -/
def mockInfer (prov : ProviderEnv) (modelId : String) : List String × String × Int :=
  let mockUrl := if strContains modelId "video" then
      "https://placehold.co/1920x1080/video/mp4"
    else "https://placehold.co/1024x1024/png"
  ([mockUrl], prov.mockTaskId, 2000)

/-- Data carried from steps 1–5 into the rest of the pipeline. -/
structure Phase1Out where
  userId : Option String
  model : ModelDef
  currentBalance : Option Int
  generationType : String
  supabaseSkipped : Bool
  skipReason : Option SbReason

/-- Steps 1–5 of the route: auth, dev-mode fallback, request validation,
model lookup, mock mode, and the guarded balance check with its 402 exit. -/
def phase1 (cfg : EnvConfig) (auth : AuthOutcome) (body : InferRequestBody)
    (prov : ProviderEnv) (w : World) : Flow Phase1Out :=
  match step1Auth cfg auth with
  | .error e => .raise w e
  | .ok uid0 =>
    match stepDevMode cfg uid0 with
    | .error r => .respond w r
    | .ok userId =>
      if body.modelId == "" || body.prompt == "" then
        .respond w (errResponse 400 "modelId and inputs.prompt are required")
      else
        match getModelById body.modelId with
        | none => .respond w (errResponse 404 ("Model not found or disabled: " ++ body.modelId))
        | some model =>
          if ¬ model.enabled then
            .respond w (errResponse 404 ("Model not found or disabled: " ++ body.modelId))
          else if cfg.useMockInference then
            let m := mockInfer prov body.modelId
            .respond w
              { status := 200, success := true, urls := some m.1, text := none,
                error := none, newBalance := none,
                meta := some
                  { modelId := body.modelId, provider := none,
                    generationId := none, taskIds := [m.2.1], duration := m.2.2,
                    outputsCountM := none, succeededCount := none, failedCount := none,
                    mock := true, supabaseSkipped := false, skipReason := none } }
          else
            let cost := model.creditCost
            let genType := if model.capability == "video" then "video" else "photo"
            match tryGetBalance cfg userId w with
            | (w1, .ok currentBalance) =>
                (match currentBalance with
                 | some b =>
                     if b < cost then
                       .respond w1 (errResponse 402
                         ("Insufficient credits. You have " ++ toString b ++
                          ", need " ++ toString cost ++ "."))
                     else
                       .next w1 ⟨userId, model, currentBalance, genType, false, none⟩
                 | none => .next w1 ⟨userId, model, none, genType, false, none⟩)
            | (w1, .error e) =>
                if cfg.supabaseOptional then
                  .next w1 ⟨userId, model, none, genType, true, some e.reason⟩
                else
                  .respond w1 (errResponse 503 ("Supabase недоступен: " ++ e.message))

/-- Result of the `runSingleInference` helper closure.  Besides a genuine
provider result, the missing-image branch of the edit models *returns a
`NextResponse` object as the closure's value* (a type-confused slip in the
source — the closure is declared to return `{urls; taskId; duration}`);
we keep that value distinct so its downstream effect (a `TypeError` when
`.urls` is read off it) can be modelled. -/
inductive SingleResult where
  | inferred (urls : List String) (taskId : String) (duration : Int)
  | respValue (r : InferResponse)

/-- `runSingleInference`: dispatch on `model.kieProvider`.  The request
payload assembled for the Kie API (`image_size`, `guidance_scale`, etc.) is
absorbed into the provider oracle; `callIdx` numbers the invocations of the
closure within one request.  For `nano_banana_edit` / `nano_banana_pro_edit`
without an input image the closure marks the record failed
("Подключите входное изображение") and returns a 400 response value —
before any provider task is created. -/
def runSingleInference (cfg : EnvConfig) (prov : ProviderEnv)
    (body : InferRequestBody) (model : ModelDef) (genId : String) (now : Int)
    (callIdx : Nat) (w : World) : Flow SingleResult :=
  if model.kieProvider == some "veo" then
    let w := { w with events := w.events ++ [Event.kieTaskStarted callIdx] }
    match prov.kie callIdx with
    | .ok urls t d => .next w (.inferred urls t d)
    | .apiError m c => .raise w (.kieApi m c)
  else if model.kieProvider == some "market" then
    if body.modelId == "nano_banana_edit" || body.modelId == "nano_banana_pro_edit" then
      if jsFalsyOpt body.imageUrl then
        match tryUpdateGenerationFailed cfg (some genId) "Подключите входное изображение" now w with
        | (w', .error e) => .raise w' (.sbUnavailable e)
        | (w', .ok _) => .next w' (.respValue (errResponse 400 "Подключите входное изображение"))
      else
        let w := { w with events := w.events ++ [Event.kieTaskStarted callIdx] }
        match prov.kie callIdx with
        | .ok urls t d => .next w (.inferred urls t d)
        | .apiError m c => .raise w (.kieApi m c)
    else
      let w := { w with events := w.events ++ [Event.kieTaskStarted callIdx] }
      match prov.kie callIdx with
      | .ok urls t d => .next w (.inferred urls t d)
      | .apiError m c => .raise w (.kieApi m c)
  else
    .raise w (.js ("Unknown provider: " ++
      (match model.kieProvider with | some p => p | none => "undefined")))

/-- One batch variant: `runSingleInference().then(ok).catch(err)` — a thrown
error is captured per variant and does not affect its siblings. -/
def runVariantCaught (cfg : EnvConfig) (prov : ProviderEnv)
    (body : InferRequestBody) (model : ModelDef) (genId : String) (now : Int)
    (callIdx : Nat) (w : World) : World × Except ThrownError SingleResult :=
  match runSingleInference cfg prov body model genId now callIdx w with
  | .next w r => (w, .ok r)
  | .raise w e => (w, .error e)
  | .respond w r => (w, .ok (.respValue r))

/-- Accumulated batch state (`allKieUrls`, `allTaskIds`, `succeededCount`,
`failedCount`). -/
structure BatchAcc where
  allKieUrls : List String
  allTaskIds : List String
  succeededCount : Nat
  failedCount : Nat
deriving DecidableEq, Repr

/-- Launch the variants of one concurrency window (their effects happen in
start order; the window is awaited as a whole). -/
def collectOutcomes (cfg : EnvConfig) (prov : ProviderEnv)
    (body : InferRequestBody) (model : ModelDef) (genId : String) (now : Int) :
    List Nat → World → World × List (Except ThrownError SingleResult)
  | [], w => (w, [])
  | j :: js, w =>
      let p := runVariantCaught cfg prov body model genId now j w
      let q := collectOutcomes cfg prov body model genId now js p.1
      (q.1, p.2 :: q.2)

/-- The `results.forEach` accumulation over one window's outcomes.  A
`respValue` outcome makes `outcome.result.urls` an absent property, so
spreading it throws a `TypeError` (signalled as `.error ()`). -/
def accumulateOutcomes (acc : BatchAcc) :
    List (Except ThrownError SingleResult) → Except Unit BatchAcc
  | [] => .ok acc
  | .ok (.inferred urls t _d) :: rest =>
      accumulateOutcomes
        { acc with
            allKieUrls := acc.allKieUrls ++ urls,
            allTaskIds := acc.allTaskIds ++ [t],
            succeededCount := acc.succeededCount + 1 } rest
  | .ok (.respValue _) :: _ => .error ()
  | .error _e :: rest =>
      accumulateOutcomes { acc with failedCount := acc.failedCount + 1 } rest

/-- The batch loop: `for (i = 0; i < outputsCount; i += CONCURRENCY_LIMIT)`
with `CONCURRENCY_LIMIT = 3`; each window of `min 3 (n - i)` variants is
awaited before the next starts. -/
def batchWindows (cfg : EnvConfig) (prov : ProviderEnv)
    (body : InferRequestBody) (model : ModelDef) (genId : String) (now : Int)
    (n : Nat) (i : Nat) (acc : BatchAcc) (w : World) : Flow BatchAcc :=
  if _h : i < n then
    let size := min 3 (n - i)
    let idxs := (List.range size).map (fun j => i + j)
    let p := collectOutcomes cfg prov body model genId now idxs w
    match accumulateOutcomes acc p.2 with
    | .error _ =>
        .raise p.1 (.js "undefined is not iterable (cannot read property Symbol(Symbol.iterator))")
    | .ok acc' => batchWindows cfg prov body model genId now n (i + 3) acc' p.1
  else .next w acc
termination_by n - i
decreasing_by omega

/-- Step 10's upload loop: persist each result URL under
`generationId` (first variant) or `generationId_v<i>`; a `null` return from
`tryUploadToStorage` falls back to the provider's own URL. -/
def uploadLoop (cfg : EnvConfig) (prov : ProviderEnv) (userId : Option String)
    (genId gtype : String) :
    List String → Nat → List String → World → World × Except SbUnavailable (List String)
  | [], _i, acc, w => (w, .ok acc)
  | kieUrl :: rest, i, acc, w =>
      let variantGenerationId := if i == 0 then genId else genId ++ "_v" ++ toString i
      match tryUploadToStorage cfg prov userId (some variantGenerationId) kieUrl gtype w with
      | (w', .error e) => (w', .error e)
      | (w', .ok (some url)) =>
          uploadLoop cfg prov userId genId gtype rest (i + 1) (acc ++ [url]) w'
      | (w', .ok none) =>
          uploadLoop cfg prov userId genId gtype rest (i + 1) (acc ++ [kieUrl]) w'

/-- Steps 10–12 of the Kie path: storage upload with degraded fallback to
the provider URLs, the success update of the record, and the success
response. -/
def kieFinish (cfg : EnvConfig) (prov : ProviderEnv) (body : InferRequestBody)
    (p1 : Phase1Out) (genId : String) (now : Int) (ocEff : Int)
    (acc : BatchAcc) (totalDuration : Int) (newBalance : Option Int)
    (skipped : Bool) (skipReason : Option SbReason) (w : World) :
    Flow InferResponse :=
  let afterUpload : World × (List String × Bool × Option SbReason) ⊕ Flow InferResponse :=
    match uploadLoop cfg prov p1.userId genId p1.generationType acc.allKieUrls 0 [] w with
    | (w1, .ok urls) => .inl (w1, urls, skipped, skipReason)
    | (w1, .error e) =>
        if cfg.supabaseOptional then
          .inl (w1, acc.allKieUrls, true, some e.reason)
        else
          match tryUpdateGenerationFailed cfg (some genId)
              ("Storage upload failed: " ++ e.message) now w1 with
          | (w2, .error e2) => .inr (.raise w2 (.sbUnavailable e2))
          | (w2, .ok _) => .inr (.respond w2 (errResponse 500 "Storage upload failed"))
  match afterUpload with
  | .inr f => f
  | .inl (w1, publicUrls, skipped1, skipReason1) =>
      let successMeta : Json := .obj
        [("taskIds", .arr (acc.allTaskIds.map .str)),
         ("duration", .num totalDuration),
         ("outputsCount", .num ocEff),
         ("originalUrls", .arr (acc.allKieUrls.map .str))]
      let finish : World → Bool → Option SbReason → Flow InferResponse :=
        fun w2 skipped2 skipReason2 =>
          .respond w2
            { status := 200, success := true, urls := some publicUrls, text := none,
              error := none, newBalance := newBalance,
              meta := some
                { modelId := body.modelId, provider := some "kie",
                  generationId := if genId == "" then none else some genId,
                  taskIds := acc.allTaskIds, duration := totalDuration,
                  outputsCountM := some ocEff,
                  succeededCount := some (acc.succeededCount : Int),
                  failedCount := some (acc.failedCount : Int),
                  mock := false, supabaseSkipped := skipped2,
                  skipReason := skipReason2 } }
      match tryUpdateGenerationSuccess cfg (some genId) publicUrls successMeta now w1 with
      | (w2, .ok _) => finish w2 skipped1 skipReason1
      | (w2, .error e) =>
          if cfg.supabaseOptional then finish w2 true (some e.reason)
          else .raise w2 (.sbUnavailable e)

/-- Step 9 of the route: Kie key check, the single / batch dispatch
(`outputsCount === 1` runs the closure inline; otherwise the windowed batch
with the all-failed `throw`), then steps 10–12. -/
def kieBranch (cfg : EnvConfig) (prov : ProviderEnv) (body : InferRequestBody)
    (p1 : Phase1Out) (genId : String) (now : Int) (newBalance : Option Int)
    (skipped : Bool) (skipReason : Option SbReason) (w : World) :
    Flow InferResponse :=
  if jsFalsyOpt cfg.kieApiKey then
    match tryUpdateGenerationFailed cfg (some genId)
        "Не настроен провайдер. Проверьте KIE_API_KEY в окружении." now w with
    | (w', .error e) => .raise w' (.sbUnavailable e)
    | (w', .ok _) =>
        .respond w' (errResponse 500 "Не настроен провайдер. Проверьте KIE_API_KEY в окружении.")
  else
    let ocEff : Int := body.outputsCount.getD 1
    if ocEff == 1 then
      match runSingleInference cfg prov body p1.model genId now 0 w with
      | .raise w e => .raise w e
      | .respond w r => .respond w r
      | .next w (.inferred urls t d) =>
          kieFinish cfg prov body p1 genId now ocEff ⟨urls, [t], 1, 0⟩ d
            newBalance skipped skipReason w
      | .next w (.respValue _) =>
          -- `allKieUrls = result.urls` is `undefined`; the very next template
          -- string reads `allKieUrls.length` and throws.
          .raise w (.js "Cannot read properties of undefined (reading 'length')")
    else
      match batchWindows cfg prov body p1.model genId now ocEff.toNat 0 ⟨[], [], 0, 0⟩ w with
      | .raise w e => .raise w e
      | .respond w r => .respond w r
      | .next w acc =>
          if acc.succeededCount == 0 then
            .raise w (.js ("All " ++ toString ocEff ++ " generations failed"))
          else
            kieFinish cfg prov body p1 genId now ocEff acc prov.batchWallMs
              newBalance skipped skipReason w

/-- Step 8 of the route: the Anthropic text branch, including its own
`try/catch` that marks the record failed and returns 500 on any thrown
error inside the branch. -/
def anthropicBranch (cfg : EnvConfig) (prov : ProviderEnv)
    (body : InferRequestBody) (genId : String) (now : Int)
    (newBalance : Option Int) (skipped : Bool) (skipReason : Option SbReason)
    (w : World) : Flow InferResponse :=
  if jsFalsyOpt cfg.anthropicApiKey then
    match tryUpdateGenerationFailed cfg (some genId) "ANTHROPIC_API_KEY not configured" now w with
    | (w', .error e) => .raise w' (.sbUnavailable e)
    | (w', .ok _) => .respond w' (errResponse 500 "ANTHROPIC_API_KEY not configured")
  else
    let anthropicModel := match cfg.anthropicModelEnv with
      | some m => m
      | none => "claude-3-5-sonnet-20241022"
    let w := { w with events := w.events ++ [Event.anthropicCalled] }
    let failWith : World → String → Flow InferResponse := fun w msg =>
      match tryUpdateGenerationFailed cfg (some genId) msg now w with
      | (w', .error e) => .raise w' (.sbUnavailable e)
      | (w', .ok _) => .respond w' (errResponse 500 msg)
    match prov.anthropic with
    | .error msg => failWith w msg
    | .ok textContent =>
        if textContent == "" then failWith w "No text in response"
        else
          let respond : World → Flow InferResponse := fun w' =>
            .respond w'
              { status := 200, success := true, urls := none,
                text := some textContent, error := none, newBalance := newBalance,
                meta := some
                  { modelId := body.modelId, provider := some "anthropic",
                    generationId := none, taskIds := [],
                    duration := prov.anthropicDuration,
                    outputsCountM := none, succeededCount := none, failedCount := none,
                    mock := false, supabaseSkipped := skipped, skipReason := skipReason } }
          let md : Json := .obj
            [("provider", .str "anthropic"), ("model", .str anthropicModel),
             ("duration", .num prov.anthropicDuration)]
          match tryUpdateGenerationSuccess cfg (some genId) [] md now w with
          | (w', .ok _) => respond w'
          | (w', .error e) =>
              if cfg.supabaseOptional then respond w'
              else failWith w' e.message

/-- The route's `catch` around a guarded Supabase call (steps 6 and 7):
`error instanceof SupabaseUnavailableError && supabaseOptional` swallows the
error — the call becomes a no-op and only a reason string is recorded —
otherwise the error is re-thrown.  `none` means swallowed. -/
def degradedSwallow (supabaseOptional : Bool) (e : SbUnavailable) :
    Option SbUnavailable :=
  if supabaseOptional then none else some e

/-- Steps 6–12: create the generation record (step 6), deduct credits when
the balance is known (step 7), then dispatch to the Anthropic or Kie
branch. -/
def phase2 (cfg : EnvConfig) (prov : ProviderEnv) (body : InferRequestBody)
    (p1 : Phase1Out) (genId requestId : String) (now : Int) (w : World) :
    Flow InferResponse :=
  let cost := p1.model.creditCost
  let requestMetadata : Json := .obj
    ([("params", body.paramsJson), ("requestId", .str requestId)] ++
     (match body.imageUrl with | some u => [("imageUrl", Json.str u)] | none => []))
  let afterCreate : (World × Bool × Option SbReason) ⊕ Flow InferResponse :=
    match tryCreateGeneration cfg p1.userId genId p1.generationType body.modelId
        body.prompt cost requestMetadata now w with
    | (w1, .ok _) => .inl (w1, p1.supabaseSkipped, p1.skipReason)
    | (w1, .error e) =>
        match degradedSwallow cfg.supabaseOptional e with
        | none => .inl (w1, true, some e.reason)
        | some e' => .inr (.raise w1 (.sbUnavailable e'))
  match afterCreate with
  | .inr f => f
  | .inl (w1, skipped1, skipReason1) =>
      let afterDebit : (World × Option Int × Bool × Option SbReason) ⊕ Flow InferResponse :=
        match p1.currentBalance with
        | none => .inl (w1, none, skipped1, skipReason1)
        | some _ =>
            match tryAdjustCredits cfg p1.userId (-cost) "generation"
                (p1.model.title ++ ": " ++ body.prompt.take 100) (some genId) w1 with
            | (w2, .ok nb) => .inl (w2, nb, skipped1, skipReason1)
            | (w2, .error e) =>
                match degradedSwallow cfg.supabaseOptional e with
                | none => .inl (w2, none, true, some e.reason)
                | some e' => .inr (.raise w2 (.sbUnavailable e'))
      match afterDebit with
      | .inr f => f
      | .inl (w2, newBalance, skipped2, skipReason2) =>
          if p1.model.provider == "anthropic" then
            anthropicBranch cfg prov body genId now newBalance skipped2 skipReason2 w2
          else
            kieBranch cfg prov body p1 genId now newBalance skipped2 skipReason2 w2

/-- The route's outer `catch`: best-effort `tryUpdateGenerationFailed` (its
own errors are logged, never re-thrown), then the `KieApiError` mapping or
the generic 500. -/
def outerCatch (cfg : EnvConfig) (generationId : Option String) (now : Int)
    (w : World) (e : ThrownError) : World × InferResponse :=
  let w1 := match generationId with
    | none => w
    | some gid => (tryUpdateGenerationFailed cfg (some gid) e.message now w).1
  match e with
  | .kieApi m code =>
      let msg := if code == 402 then "Insufficient credits on Kie.ai account"
        else if code == 504 then "Task timed out. Please try again."
        else m
      (w1, errResponse code msg)
  | _ => (w1, errResponse 500 ("Inference failed: " ++ e.message))

/-- `POST /api/infer` (fallback-aware version): the whole request pipeline.
`requestId` and `freshGenId` stand for `Math.random()...` and
`crypto.randomUUID()`; `now` is the wall clock used for row timestamps. -/
def POST (cfg : EnvConfig) (auth : AuthOutcome) (body : InferRequestBody)
    (prov : ProviderEnv) (requestId freshGenId : String) (now : Int)
    (w : World) : World × InferResponse :=
  match phase1 cfg auth body prov w with
  | .respond w r => (w, r)
  | .raise w e => outerCatch cfg none now w e
  | .next w p1 =>
      match phase2 cfg prov body p1 freshGenId requestId now w with
      | .respond w r => (w, r)
      | .raise w e => outerCatch cfg (some freshGenId) now w e
      | .next w r => (w, r)

/-! ### Concrete fixtures for closed evaluations -/

def emptyWorld : World :=
  { ledger := { account := none, transactions := [] }, gens := [],
    storage := { objects := [] }, events := [] }

def worldWithBalance (b : Int) : World :=
  { emptyWorld with ledger := { account := some b, transactions := [] } }

/-- Strict-mode environment: Supabase configured and reachable, fallback
mode off, provider keys present, mock off. -/
def strictCfg : EnvConfig :=
  { supabaseOptional := false, allowAnonInfer := false, testUserId := none,
    useMockInference := false, anthropicApiKey := some "anthropic-key",
    anthropicModelEnv := none, kieApiKey := some "kie-key",
    sbEnvConfigured := true, sbReachable := true,
    sbNetworkErrMsg := "fetch failed" }

/-- Degraded mode with a reachable Supabase backend
(`INFER_SUPABASE_OPTIONAL=true`). -/
def degradedUpCfg : EnvConfig := { strictCfg with supabaseOptional := true }

/-- Degraded mode with the Supabase env vars absent. -/
def degradedEnvMissingCfg : EnvConfig :=
  { strictCfg with supabaseOptional := true, sbEnvConfigured := false }

/-- Provider oracle: every Kie invocation succeeds with one URL. -/
def provSingleOk : ProviderEnv :=
  { kie := fun _ => .ok ["https://kie.example/img.png"] "task-1" 1200,
    anthropic := .ok "hello", anthropicDuration := 500, batchWallMs := 3000,
    fetchOk := fun _ => true, mockTaskId := "mock-task" }

def bodySeedream : InferRequestBody :=
  { modelId := "seedream_image", prompt := "a cat", imageUrl := none,
    paramsJson := .obj [], outputsCount := none }

/-! ## Theorems -/

/-- One `adjust_credits` call preserves non-negativity of the balance. -/
theorem adjust_credits_step_nonneg (st : Ledger) (a : Int) (ty : String)
    (d g : Option String) (h : 0 ≤ ledgerBalance st) :
    0 ≤ ledgerBalance (adjust_credits st a ty d g).1 := by
  unfold ledgerBalance at *
  unfold adjust_credits
  by_cases hc : a < 0 ∧ st.account.getD 0 + a < 0
  · simp only [hc, if_true, and_self]
    simpa using h
  · simp only [hc, if_false]
    simp only [Option.getD_some]
    omega

theorem runAdjusts_nonneg (calls : List AdjustCall) :
    ∀ st : Ledger, 0 ≤ ledgerBalance st → 0 ≤ ledgerBalance (runAdjusts st calls) := by
  induction calls with
  | nil => intro st h; simpa [runAdjusts] using h
  | cons c cs ih =>
      intro st h
      rw [runAdjusts]
      exact ih _ (adjust_credits_step_nonneg st c.amount c.txnType c.description
        c.generation_id h)

/-- C1: For every sequence of `adjust_credits` calls on one identity, the
balance never becomes negative: a call with `signedAmount < 0` whose new
balance would be `< 0` is rejected with no balance mutation and no
transaction row inserted, and every successful call both persists the new
balance and inserts exactly one corresponding transaction row. -/
theorem C1_adjust_credits_ledger_invariants :
    (∀ (st : Ledger) (calls : List AdjustCall), 0 ≤ ledgerBalance st →
        0 ≤ ledgerBalance (runAdjusts st calls))
  ∧ (∀ (st : Ledger) (a : Int) (ty : String) (d g : Option String),
        a < 0 → ledgerBalance st + a < 0 →
        (adjust_credits st a ty d g).1.transactions = st.transactions ∧
        ledgerBalance (adjust_credits st a ty d g).1 = ledgerBalance st ∧
        (adjust_credits st a ty d g).2 = .insufficient (ledgerBalance st))
  ∧ (∀ (st : Ledger) (a : Int) (ty : String) (d g : Option String),
        ¬ (a < 0 ∧ ledgerBalance st + a < 0) →
        ledgerBalance (adjust_credits st a ty d g).1 = ledgerBalance st + a ∧
        (adjust_credits st a ty d g).1.transactions =
          st.transactions ++
            [{ amount := a, txnType := ty, description := d, generation_id := g }] ∧
        (adjust_credits st a ty d g).2 = .success (ledgerBalance st + a)) := by
  refine ⟨fun st calls h => runAdjusts_nonneg calls st h, ?_, ?_⟩
  · intro st a ty d g ha hnb
    unfold ledgerBalance at *
    unfold adjust_credits
    have hc : a < 0 ∧ st.account.getD 0 + a < 0 := ⟨ha, hnb⟩
    simp [hc]
  · intro st a ty d g hc
    unfold ledgerBalance at *
    unfold adjust_credits
    simp [hc]

theorem C1_adjust_credits_ledger_invariants_witness :
    (0 ≤ ledgerBalance { account := none, transactions := [] } ∧
     0 ≤ ledgerBalance (runAdjusts { account := none, transactions := [] }
        [{ amount := 10, txnType := "topup", description := none, generation_id := none },
         { amount := -8, txnType := "generation", description := none,
           generation_id := some "g1" },
         { amount := -8, txnType := "generation", description := none,
           generation_id := some "g2" }]))
  ∧ ((adjust_credits { account := some 2, transactions := [] } (-5) "generation"
        none (some "g2")).1.transactions = [] ∧
     ledgerBalance (adjust_credits { account := some 2, transactions := [] } (-5)
        "generation" none (some "g2")).1 = 2)
  ∧ (adjust_credits { account := some 10, transactions := [] } (-8) "generation"
        none (some "g1")).1.transactions =
      [{ amount := -8, txnType := "generation", description := none,
         generation_id := some "g1" }] := by
  refine ⟨⟨by decide, C1_adjust_credits_ledger_invariants.1 _ _ (by decide)⟩, ⟨?_, ?_⟩, ?_⟩
  · exact (C1_adjust_credits_ledger_invariants.2.1 _ (-5) "generation" none (some "g2")
      (by decide) (by decide)).1
  · exact (C1_adjust_credits_ledger_invariants.2.1 _ (-5) "generation" none (some "g2")
      (by decide) (by decide)).2.1
  · have h := (C1_adjust_credits_ledger_invariants.2.2
      { account := some 10, transactions := [] } (-8) "generation" none (some "g1")
      (by decide)).2.1
    simpa using h

/-- `wrapSupabaseOperation` classifies the business rejection message
`"Insufficient credits"` as reason `other` — i.e. as unavailability. -/
theorem classifyError_insufficient_credits :
    classifyError "adjustCredits" "Insufficient credits" =
      { message := "Error during adjustCredits: Insufficient credits",
        reason := .other } := by
  decide

/-- C4 counterexample: with the Supabase backend configured and reachable
and degraded mode enabled, a debit of 8 against a balance of 0 — a pure
business insufficient-funds rejection from `adjust_credits` — is converted
by the guard into a `SupabaseUnavailableError` with reason `other`, which
the route's catch swallows into a no-op with a recorded reason.  So the
claim "a business failure is never swallowed; only
infrastructure-unavailability errors are downgraded" is false. -/
theorem C4_cex_insufficient_funds_swallowed :
    (tryAdjustCredits degradedUpCfg (some "user-1") (-8) "generation"
        "Seedream (Image): a cat" (some "gen-1") (worldWithBalance 0)).2
      = .error { message := "Error during adjustCredits: Insufficient credits",
                 reason := .other }
  ∧ degradedSwallow true
      { message := "Error during adjustCredits: Insufficient credits",
        reason := .other } = none
  ∧ (tryAdjustCredits degradedUpCfg (some "user-1") (-8) "generation"
        "Seedream (Image): a cat" (some "gen-1") (worldWithBalance 0)).1.ledger.transactions
      = []
  ∧ ledgerBalance (tryAdjustCredits degradedUpCfg (some "user-1") (-8) "generation"
        "Seedream (Image): a cat" (some "gen-1") (worldWithBalance 0)).1.ledger = 0 :=
  ⟨rfl, rfl, rfl, rfl⟩

/-- C4 (amended): under the degraded-mode guard, *every* failure of the
wrapped adjust operation is converted to a `SupabaseUnavailableError`; in
particular the business insufficient-funds rejection is classified with
reason `other` and — with degraded mode enabled — swallowed at the call
site into a no-op with a recorded reason (no transaction logged, balance
value unchanged).  Only the explicit pre-debit balance check prevents this
on the common path. -/
theorem C4_amended_guard_swallows_business_failure (cfg : EnvConfig)
    (uid ty descr : String) (gid : Option String) (amount : Int) (w : World)
    (henv : cfg.sbEnvConfigured = true) (hreach : cfg.sbReachable = true)
    (hopt : cfg.supabaseOptional = true)
    (hneg : amount < 0) (hins : ledgerBalance w.ledger + amount < 0) :
    (tryAdjustCredits cfg (some uid) amount ty descr gid w).2
      = .error (classifyError "adjustCredits" "Insufficient credits")
  ∧ degradedSwallow cfg.supabaseOptional
      (classifyError "adjustCredits" "Insufficient credits") = none
  ∧ (tryAdjustCredits cfg (some uid) amount ty descr gid w).1.ledger.transactions
      = w.ledger.transactions
  ∧ ledgerBalance (tryAdjustCredits cfg (some uid) amount ty descr gid w).1.ledger
      = ledgerBalance w.ledger := by
  have hc : amount < 0 ∧ w.ledger.account.getD 0 + amount < 0 := by
    refine ⟨hneg, ?_⟩
    unfold ledgerBalance at hins
    exact hins
  refine ⟨?_, ?_, ?_, ?_⟩
  · simp [tryAdjustCredits, runSbOp, henv, hreach, adjustCredits, adjust_credits, hc,
      wrapSupabaseOperation]
  · simp [degradedSwallow, hopt]
  · simp [tryAdjustCredits, runSbOp, henv, hreach, adjustCredits, adjust_credits, hc,
      wrapSupabaseOperation]
  · simp [tryAdjustCredits, runSbOp, henv, hreach, adjustCredits, adjust_credits, hc,
      wrapSupabaseOperation, ledgerBalance]

theorem C4_amended_guard_swallows_business_failure_witness :
    (degradedUpCfg.sbEnvConfigured = true ∧ degradedUpCfg.sbReachable = true ∧
     degradedUpCfg.supabaseOptional = true ∧ (-8 : Int) < 0 ∧
     ledgerBalance (worldWithBalance 0).ledger + (-8) < 0)
  ∧ (tryAdjustCredits degradedUpCfg (some "user-1") (-8) "generation" "d"
        (some "gen-1") (worldWithBalance 0)).2
      = .error (classifyError "adjustCredits" "Insufficient credits") := by
  refine ⟨⟨rfl, rfl, rfl, by decide, by decide⟩, ?_⟩
  exact (C4_amended_guard_swallows_business_failure degradedUpCfg "user-1" "generation"
    "d" (some "gen-1") (-8) (worldWithBalance 0) rfl rfl rfl (by decide) (by decide)).1

/-- C8: asset persistence is idempotent — calling
`uploadGenerationToStorage` twice with the same
`(identity, generationId, kind)` does not error on the second call (the
upload uses `upsert: true`, so it overwrites the same stable path
`userId/kind/generationId.png`) and the second call returns the same public
reference as the first. -/
theorem C8_upload_idempotent (st : StorageState) (fetchOk : String → Bool)
    (userId generationId url1 url2 gtype : String)
    (h1 : fetchOk url1 = true) (h2 : fetchOk url2 = true) :
    ∃ st1 ref1 st2 ref2,
      uploadGenerationToStorage st fetchOk userId generationId url1 gtype
        = .ok (st1, ref1)
      ∧ uploadGenerationToStorage st1 fetchOk userId generationId url2 gtype
        = .ok (st2, ref2)
      ∧ ref2 = ref1
      ∧ ref1 = getPublicUrl (userId ++ "/" ++ gtype ++ "/" ++ generationId ++ ".png") := by
  have e1 : uploadGenerationToStorage st fetchOk userId generationId url1 gtype
      = .ok (storagePut st (userId ++ "/" ++ gtype ++ "/" ++ generationId ++ ".png") url1,
             getPublicUrl (userId ++ "/" ++ gtype ++ "/" ++ generationId ++ ".png")) := by
    simp [uploadGenerationToStorage, storageUpload, h1]
  have e2 : uploadGenerationToStorage
        (storagePut st (userId ++ "/" ++ gtype ++ "/" ++ generationId ++ ".png") url1)
        fetchOk userId generationId url2 gtype
      = .ok (storagePut
               (storagePut st (userId ++ "/" ++ gtype ++ "/" ++ generationId ++ ".png") url1)
               (userId ++ "/" ++ gtype ++ "/" ++ generationId ++ ".png") url2,
             getPublicUrl (userId ++ "/" ++ gtype ++ "/" ++ generationId ++ ".png")) := by
    simp [uploadGenerationToStorage, storageUpload, h2]
  exact ⟨_, _, _, _, e1, e2, rfl, rfl⟩

theorem C8_upload_idempotent_witness :
    ((fun _ : String => true) "https://kie.example/a.png" = true)
  ∧ ∃ st1 ref1 st2 ref2,
      uploadGenerationToStorage { objects := [] } (fun _ => true) "user-1" "gen-1"
          "https://kie.example/a.png" "photo" = .ok (st1, ref1)
      ∧ uploadGenerationToStorage st1 (fun _ => true) "user-1" "gen-1"
          "https://kie.example/b.png" "photo" = .ok (st2, ref2)
      ∧ ref2 = ref1
      ∧ ref1 = getPublicUrl ("user-1" ++ "/" ++ "photo" ++ "/" ++ "gen-1" ++ ".png") :=
  ⟨rfl, C8_upload_idempotent { objects := [] } (fun _ => true) "user-1" "gen-1"
    "https://kie.example/a.png" "https://kie.example/b.png" "photo" rfl rfl⟩

/-- C9: `updateGenerationFailed` replaces the matching record's entire
`metadata` column by the single-field object `error := errorMessage`
(discarding everything previously stored there) and sets only `status` and
`updated_at` besides; `updateGenerationSuccess` likewise assigns `metadata`
wholesale and sets only `status`, `result_urls` and `updated_at`; records
with a different id are untouched. -/
theorem C9_updates_replace_metadata_wholesale :
    (∀ (gens : List Generation) (gid msg : String) (now : Int) (g : Generation),
       g ∈ gens →
       (g.id = gid →
          { g with status := "failed", metadata := .obj [("error", .str msg)],
                   updated_at := now } ∈ updateGenerationFailed gens gid msg now)
       ∧ (g.id ≠ gid → g ∈ updateGenerationFailed gens gid msg now))
  ∧ (∀ (gens : List Generation) (gid : String) (urls : List String) (md : Json)
       (now : Int) (g : Generation),
       g ∈ gens →
       (g.id = gid →
          { g with status := "success", result_urls := urls, metadata := md,
                   updated_at := now } ∈ updateGenerationSuccess gens gid urls md now)
       ∧ (g.id ≠ gid → g ∈ updateGenerationSuccess gens gid urls md now)) := by
  constructor
  · intro gens gid msg now g hg
    constructor
    · intro hid
      have : (fun g : Generation =>
          if g.id == gid then
            { g with status := "failed",
                     metadata := Json.obj [("error", Json.str msg)], updated_at := now }
          else g) g =
          { g with status := "failed",
                   metadata := Json.obj [("error", Json.str msg)], updated_at := now } := by
        simp [hid]
      rw [updateGenerationFailed, ← this]
      exact List.mem_map_of_mem _ hg
    · intro hid
      have : (fun g : Generation =>
          if g.id == gid then
            { g with status := "failed",
                     metadata := Json.obj [("error", Json.str msg)], updated_at := now }
          else g) g = g := by
        simp [hid]
      rw [updateGenerationFailed, ← this]
      exact List.mem_map_of_mem _ hg
  · intro gens gid urls md now g hg
    constructor
    · intro hid
      have : (fun g : Generation =>
          if g.id == gid then
            { g with status := "success", result_urls := urls,
                     metadata := md, updated_at := now }
          else g) g =
          { g with status := "success", result_urls := urls,
                   metadata := md, updated_at := now } := by
        simp [hid]
      rw [updateGenerationSuccess, ← this]
      exact List.mem_map_of_mem _ hg
    · intro hid
      have : (fun g : Generation =>
          if g.id == gid then
            { g with status := "success", result_urls := urls,
                     metadata := md, updated_at := now }
          else g) g = g := by
        simp [hid]
      rw [updateGenerationSuccess, ← this]
      exact List.mem_map_of_mem _ hg

/-- A concrete record whose metadata holds request params, a provider task
id and an image url, all of which `updateGenerationFailed` discards. -/
def sampleGeneration : Generation :=
  { id := "gen-1", user_id := "user-1", genType := "photo",
    model := "seedream_image", prompt := "a cat", status := "processing",
    result_urls := [], credits_used := 8,
    metadata := .obj
      [("params", .obj [("image_size", .str "square_hd")]),
       ("taskId", .str "task-7"), ("imageUrl", .str "https://in.example/x.png")],
    created_at := 10, updated_at := 10 }

theorem C9_updates_replace_metadata_wholesale_witness :
    (sampleGeneration ∈ [sampleGeneration] ∧ sampleGeneration.id = "gen-1")
  ∧ { sampleGeneration with
        status := "failed", metadata := .obj [("error", .str "boom")],
        updated_at := 42 } ∈
      updateGenerationFailed [sampleGeneration] "gen-1" "boom" 42 := by
  refine ⟨⟨List.mem_singleton.mpr rfl, rfl⟩, ?_⟩
  exact (C9_updates_replace_metadata_wholesale.1 [sampleGeneration] "gen-1" "boom" 42
    sampleGeneration (List.mem_singleton.mpr rfl)).1 rfl

theorem get_user_balance_snd (st : Ledger) : (get_user_balance st).2 = ledgerBalance st := by
  unfold get_user_balance ledgerBalance
  cases h : st.account <;> simp [h]

theorem get_user_balance_fst_transactions (st : Ledger) :
    (get_user_balance st).1.transactions = st.transactions := by
  unfold get_user_balance
  cases h : st.account <;> simp [h]

theorem get_user_balance_fst_balance (st : Ledger) :
    ledgerBalance (get_user_balance st).1 = ledgerBalance st := by
  unfold get_user_balance ledgerBalance
  cases h : st.account <;> simp [h]

/-- `tryGetBalance` for a non-null user with the backend configured and
reachable: the balance is read (materializing the row) and one
`balanceChecked` event is appended. -/
theorem tryGetBalance_up (cfg : EnvConfig) (uid : String) (w : World)
    (henv : cfg.sbEnvConfigured = true) (hreach : cfg.sbReachable = true) :
    tryGetBalance cfg (some uid) w =
      ({ w with
           ledger := (get_user_balance w.ledger).1,
           events := w.events ++ [Event.balanceChecked (ledgerBalance w.ledger)] },
       .ok (some (ledgerBalance w.ledger))) := by
  simp [tryGetBalance, runSbOp, henv, hreach, wrapSupabaseOperation,
    get_user_balance_snd]

/-- C5: for every request whose identity's balance is known (user resolved,
ledger configured and reachable, mock mode off) and strictly less than the
model's credit cost, the response is a terminal 402 error, no generation
record is created, and no ledger debit is attempted: the record store is
unchanged and the ledger's transactions and balance are unchanged (the
only trace is the balance read itself). -/
theorem C5_insufficient_balance_402 (cfg : EnvConfig) (uid : String)
    (body : InferRequestBody) (prov : ProviderEnv) (model : ModelDef)
    (requestId freshGenId : String) (now : Int) (w : World)
    (huid : ¬ uid = "")
    (henv : cfg.sbEnvConfigured = true) (hreach : cfg.sbReachable = true)
    (hmock : cfg.useMockInference = false)
    (hmid : ¬ body.modelId = "") (hprompt : ¬ body.prompt = "")
    (hmodel : getModelById body.modelId = some model)
    (henabled : model.enabled = true)
    (hbal : ledgerBalance w.ledger < model.creditCost) :
    (POST cfg (.ok (some uid)) body prov requestId freshGenId now w).2
      = errResponse 402
          ("Insufficient credits. You have " ++ toString (ledgerBalance w.ledger) ++
           ", need " ++ toString model.creditCost ++ ".")
  ∧ (POST cfg (.ok (some uid)) body prov requestId freshGenId now w).1.gens = w.gens
  ∧ (POST cfg (.ok (some uid)) body prov requestId freshGenId now w).1.ledger.transactions
      = w.ledger.transactions
  ∧ ledgerBalance (POST cfg (.ok (some uid)) body prov requestId freshGenId now w).1.ledger
      = ledgerBalance w.ledger
  ∧ (POST cfg (.ok (some uid)) body prov requestId freshGenId now w).1.events
      = w.events ++ [Event.balanceChecked (ledgerBalance w.ledger)] := by
  have hpost : POST cfg (.ok (some uid)) body prov requestId freshGenId now w =
      ({ w with
           ledger := (get_user_balance w.ledger).1,
           events := w.events ++ [Event.balanceChecked (ledgerBalance w.ledger)] },
       errResponse 402
         ("Insufficient credits. You have " ++ toString (ledgerBalance w.ledger) ++
          ", need " ++ toString model.creditCost ++ ".")) := by
    have huidb : (uid == "") = false := by simpa using huid
    have hmidb : (body.modelId == "") = false := by simpa using hmid
    have hpromptb : (body.prompt == "") = false := by simpa using hprompt
    unfold POST phase1
    simp only [step1Auth, stepDevMode, jsFalsyOpt, huidb, hmidb, hpromptb, hmock, hmodel,
      henabled, Bool.not_false, Bool.false_or, if_true, ite_true, Bool.false_eq_true,
      ite_false, not_true, not_false_iff]
    rw [tryGetBalance_up cfg uid w henv hreach]
    simp [hbal]
  rw [hpost]
  refine ⟨rfl, rfl, ?_, ?_, rfl⟩
  · exact get_user_balance_fst_transactions w.ledger
  · exact get_user_balance_fst_balance w.ledger

theorem C5_insufficient_balance_402_witness :
    (¬ "user-1" = "" ∧ strictCfg.sbEnvConfigured = true ∧ strictCfg.sbReachable = true ∧
     strictCfg.useMockInference = false ∧ ¬ bodySeedream.modelId = "" ∧
     ¬ bodySeedream.prompt = "" ∧
     ledgerBalance (worldWithBalance 5).ledger < 8)
  ∧ (POST strictCfg (.ok (some "user-1")) bodySeedream provSingleOk "req-1" "gen-1" 100
        (worldWithBalance 5)).2
      = errResponse 402 "Insufficient credits. You have 5, need 8."
  ∧ (POST strictCfg (.ok (some "user-1")) bodySeedream provSingleOk "req-1" "gen-1" 100
        (worldWithBalance 5)).1.gens = (worldWithBalance 5).gens := by
  have hm : getModelById bodySeedream.modelId =
      some { id := "seedream_image", title := "Seedream (Image)", provider := "kie-market",
             capability := "image", enabled := true, creditCost := 8,
             kieModel := some "bytedance/seedream", kieProvider := some "market" } := by
    decide
  have h := C5_insufficient_balance_402 strictCfg "user-1" bodySeedream provSingleOk
    _ "req-1" "gen-1" 100 (worldWithBalance 5) (by decide) rfl rfl rfl (by decide)
    (by decide) hm rfl (by decide)
  exact ⟨⟨by decide, rfl, rfl, rfl, by decide, by decide, by decide⟩, h.1, h.2.1⟩

/-! ### Path lemmas for the orchestrator -/

/-- `phase1` on the strict happy path: resolved non-empty user, valid body,
enabled model, mock off, Supabase configured and reachable, balance known
and not below cost. -/
theorem phase1_known_balance_ok (cfg : EnvConfig) (uid : String)
    (body : InferRequestBody) (prov : ProviderEnv) (model : ModelDef) (w : World)
    (huid : ¬ uid = "")
    (henv : cfg.sbEnvConfigured = true) (hreach : cfg.sbReachable = true)
    (hmock : cfg.useMockInference = false)
    (hmid : ¬ body.modelId = "") (hprompt : ¬ body.prompt = "")
    (hmodel : getModelById body.modelId = some model)
    (henabled : model.enabled = true)
    (hbal : ¬ ledgerBalance w.ledger < model.creditCost) :
    phase1 cfg (.ok (some uid)) body prov w =
      .next
        { w with
            ledger := (get_user_balance w.ledger).1,
            events := w.events ++ [Event.balanceChecked (ledgerBalance w.ledger)] }
        { userId := some uid, model := model,
          currentBalance := some (ledgerBalance w.ledger),
          generationType := if model.capability == "video" then "video" else "photo",
          supabaseSkipped := false, skipReason := none } := by
  have huidb : (uid == "") = false := by simpa using huid
  have hmidb : (body.modelId == "") = false := by simpa using hmid
  have hpromptb : (body.prompt == "") = false := by simpa using hprompt
  unfold phase1
  simp only [step1Auth, stepDevMode, jsFalsyOpt, huidb, hmidb, hpromptb, hmock, hmodel,
    henabled, Bool.not_false, Bool.false_or, if_true, ite_true, Bool.false_eq_true,
    ite_false, not_true, not_false_iff]
  rw [tryGetBalance_up cfg uid w henv hreach]
  simp [hbal]

/-- `tryCreateGeneration` for a non-null user with the backend up and a
fresh generation id: one row with status `"processing"` is inserted and a
`recordCreated` event is appended. -/
theorem tryCreateGeneration_up (cfg : EnvConfig) (uid gid gtype model prompt : String)
    (cost : Int) (md : Json) (now : Int) (w : World)
    (henv : cfg.sbEnvConfigured = true) (hreach : cfg.sbReachable = true)
    (hfresh : w.gens.any (fun g => g.id == gid) = false) :
    tryCreateGeneration cfg (some uid) gid gtype model prompt cost md now w =
      ({ w with
           gens := w.gens ++
             [{ id := gid, user_id := uid, genType := gtype, model := model,
                prompt := prompt, status := "processing", result_urls := [],
                credits_used := cost, metadata := md,
                created_at := now, updated_at := now }],
           events := w.events ++ [Event.recordCreated gid] }, .ok ()) := by
  simp [tryCreateGeneration, runSbOp, henv, hreach, wrapSupabaseOperation,
    createGeneration, hfresh]

/-- `tryAdjustCredits` for a non-null user with the backend up when the
adjustment is not rejected: the balance is updated, one transaction row is
appended, and the `debitAttempted` / `debitLogged` events are recorded. -/
theorem tryAdjustCredits_up_ok (cfg : EnvConfig) (uid ty descr : String)
    (gid : Option String) (amount : Int) (w : World)
    (henv : cfg.sbEnvConfigured = true) (hreach : cfg.sbReachable = true)
    (hok : ¬ (amount < 0 ∧ ledgerBalance w.ledger + amount < 0)) :
    tryAdjustCredits cfg (some uid) amount ty descr gid w =
      ({ w with
           ledger :=
             { account := some (ledgerBalance w.ledger + amount),
               transactions := w.ledger.transactions ++
                 [{ amount := amount, txnType := ty, description := some descr,
                    generation_id := gid }] },
           events := w.events ++
             [Event.debitAttempted amount, Event.debitLogged (gid.getD "") amount] },
       .ok (some (ledgerBalance w.ledger + amount))) := by
  have hok' : ¬ (amount < 0 ∧ w.ledger.account.getD 0 + amount < 0) := by
    unfold ledgerBalance at hok
    exact hok
  simp [tryAdjustCredits, runSbOp, henv, hreach, wrapSupabaseOperation,
    adjustCredits, adjust_credits, hok', ledgerBalance]

/-- `tryUpdateGenerationFailed` with the backend up. -/
theorem tryUpdateGenerationFailed_up (cfg : EnvConfig) (gid msg : String)
    (now : Int) (w : World)
    (henv : cfg.sbEnvConfigured = true) (hreach : cfg.sbReachable = true) :
    tryUpdateGenerationFailed cfg (some gid) msg now w =
      ({ w with
           gens := updateGenerationFailed w.gens gid msg now,
           events := w.events ++ [Event.recordMarkedFailed gid] }, .ok ()) := by
  simp [tryUpdateGenerationFailed, runSbOp, henv, hreach, wrapSupabaseOperation]

/-- `tryUpdateGenerationSuccess` with the backend up. -/
theorem tryUpdateGenerationSuccess_up (cfg : EnvConfig) (gid : String)
    (urls : List String) (md : Json) (now : Int) (w : World)
    (henv : cfg.sbEnvConfigured = true) (hreach : cfg.sbReachable = true) :
    tryUpdateGenerationSuccess cfg (some gid) urls md now w =
      ({ w with
           gens := updateGenerationSuccess w.gens gid urls md now,
           events := w.events ++ [Event.recordMarkedSuccess gid] }, .ok ()) := by
  simp [tryUpdateGenerationSuccess, runSbOp, henv, hreach, wrapSupabaseOperation]

/-- The world carried by a `Flow` value, whichever constructor it is. -/
def Flow.world {α : Type} : Flow α → World
  | .next w _ => w
  | .respond w _ => w
  | .raise w _ => w

/-- Events that can be emitted *after* step 7 of the pipeline (provider
invocations, storage writes, terminal record transitions) — never record
creation, never a balance read, never a debit. -/
def phase3Event : Event → Bool
  | .balanceChecked _ => false
  | .recordCreated _ => false
  | .debitAttempted _ => false
  | .debitLogged _ _ => false
  | .kieTaskStarted _ => true
  | .anthropicCalled => true
  | .storedObject _ => true
  | .recordMarkedSuccess _ => true
  | .recordMarkedFailed _ => true

/-- Invariant of the pipeline tail (steps 8–12 and the outer catch): the
ledger is untouched and only `phase3Event`s are appended to the trace. -/
def tailFrom (w w' : World) : Prop :=
  w'.ledger = w.ledger ∧
  ∃ Δ, w'.events = w.events ++ Δ ∧ ∀ e ∈ Δ, phase3Event e = true

theorem tailFrom_refl (w : World) : tailFrom w w :=
  ⟨rfl, [], by simp, by simp⟩

theorem tailFrom_trans {w1 w2 w3 : World} (h1 : tailFrom w1 w2)
    (h2 : tailFrom w2 w3) : tailFrom w1 w3 := by
  obtain ⟨hl1, d1, he1, hp1⟩ := h1
  obtain ⟨hl2, d2, he2, hp2⟩ := h2
  refine ⟨hl2.trans hl1, d1 ++ d2, ?_, ?_⟩
  · rw [he2, he1, List.append_assoc]
  · intro e he
    rcases List.mem_append.mp he with h | h
    · exact hp1 e h
    · exact hp2 e h

/-- Appending phase-3 events preserves `tailFrom`. -/
theorem tailFrom_append (w : World) (Δ : List Event)
    (h : ∀ e ∈ Δ, phase3Event e = true) :
    tailFrom w { w with events := w.events ++ Δ } :=
  ⟨rfl, Δ, rfl, h⟩

theorem tryUpdateGenerationFailed_tail (cfg : EnvConfig) (gid : Option String)
    (msg : String) (now : Int) (w : World) :
    tailFrom w (tryUpdateGenerationFailed cfg gid msg now w).1 := by
  cases gid with
  | none => exact tailFrom_refl w
  | some g =>
      unfold tryUpdateGenerationFailed runSbOp
      by_cases h1 : cfg.sbEnvConfigured = true
      · by_cases h2 : cfg.sbReachable = true
        · simp [h1, h2]
          exact ⟨rfl, [Event.recordMarkedFailed g], rfl, by simp [phase3Event]⟩
        · simp [h1, h2, tailFrom_refl]
      · simp [h1, tailFrom_refl]

theorem tryUpdateGenerationSuccess_tail (cfg : EnvConfig) (gid : Option String)
    (urls : List String) (md : Json) (now : Int) (w : World) :
    tailFrom w (tryUpdateGenerationSuccess cfg gid urls md now w).1 := by
  cases gid with
  | none => exact tailFrom_refl w
  | some g =>
      unfold tryUpdateGenerationSuccess runSbOp
      by_cases h1 : cfg.sbEnvConfigured = true
      · by_cases h2 : cfg.sbReachable = true
        · simp [h1, h2]
          exact ⟨rfl, [Event.recordMarkedSuccess g], rfl, by simp [phase3Event]⟩
        · simp [h1, h2, tailFrom_refl]
      · simp [h1, tailFrom_refl]

theorem tryUploadToStorage_tail (cfg : EnvConfig) (prov : ProviderEnv)
    (userId gid : Option String) (imageUrl gtype : String) (w : World) :
    tailFrom w (tryUploadToStorage cfg prov userId gid imageUrl gtype w).1 := by
  unfold tryUploadToStorage
  match userId, gid with
  | none, _ => exact tailFrom_refl w
  | some _, none => exact tailFrom_refl w
  | some uid, some g =>
      unfold runSbOp
      by_cases h1 : cfg.sbEnvConfigured = true
      · by_cases h2 : cfg.sbReachable = true
        · simp only [h1, h2]
          cases h : uploadGenerationToStorage w.storage prov.fetchOk uid g imageUrl gtype with
          | ok p =>
              simp [h, wrapSupabaseOperation]
              exact ⟨rfl, [Event.storedObject (uid ++ "/" ++ gtype ++ "/" ++ g ++ ".png")],
                rfl, by simp [phase3Event]⟩
          | error e =>
              cases e with
              | sbUnavailable e' => simp [h, wrapSupabaseOperation, tailFrom_refl]
              | jsError m => simp [h, wrapSupabaseOperation, tailFrom_refl]
        · simp [h1, h2, wrapSupabaseOperation, tailFrom_refl]
      · simp [h1, wrapSupabaseOperation, tailFrom_refl]

theorem runSingleInference_tail (cfg : EnvConfig) (prov : ProviderEnv)
    (body : InferRequestBody) (model : ModelDef) (genId : String) (now : Int)
    (callIdx : Nat) (w : World) :
    tailFrom w (runSingleInference cfg prov body model genId now callIdx w).world := by
  unfold runSingleInference
  by_cases hveo : model.kieProvider == some "veo"
  · simp only [hveo, if_true, ite_true]
    cases h : prov.kie callIdx <;>
      simp [h, Flow.world] <;>
      exact ⟨rfl, [Event.kieTaskStarted callIdx], rfl, by simp [phase3Event]⟩
  · by_cases hmarket : model.kieProvider == some "market"
    · by_cases hnano : (body.modelId == "nano_banana_edit" ||
          body.modelId == "nano_banana_pro_edit") = true
      · by_cases himg : jsFalsyOpt body.imageUrl = true
        · simp only [hveo, hmarket, hnano, himg, if_true, ite_true, if_false, ite_false,
            Bool.false_eq_true]
          have ht := tryUpdateGenerationFailed_tail cfg (some genId)
            "Подключите входное изображение" now w
          cases h : tryUpdateGenerationFailed cfg (some genId)
              "Подключите входное изображение" now w with
          | mk w' r =>
              rw [h] at ht
              cases r <;> simpa [Flow.world] using ht
        · simp only [hveo, hmarket, hnano, himg, Bool.false_eq_true, if_false, ite_false,
            if_true, ite_true]
          cases h : prov.kie callIdx <;>
            simp [h, Flow.world, himg] <;>
            exact ⟨rfl, [Event.kieTaskStarted callIdx], rfl, by simp [phase3Event]⟩
      · simp only [hveo, hmarket, hnano, Bool.false_eq_true, if_false, ite_false,
          if_true, ite_true]
        cases h : prov.kie callIdx <;>
          simp [h, Flow.world, hnano] <;>
          exact ⟨rfl, [Event.kieTaskStarted callIdx], rfl, by simp [phase3Event]⟩
    · simp [hveo, hmarket, Flow.world, tailFrom_refl]

theorem runVariantCaught_tail (cfg : EnvConfig) (prov : ProviderEnv)
    (body : InferRequestBody) (model : ModelDef) (genId : String) (now : Int)
    (callIdx : Nat) (w : World) :
    tailFrom w (runVariantCaught cfg prov body model genId now callIdx w).1 := by
  have h := runSingleInference_tail cfg prov body model genId now callIdx w
  unfold runVariantCaught
  cases hr : runSingleInference cfg prov body model genId now callIdx w <;>
    rw [hr] at h <;> simpa [Flow.world] using h

theorem collectOutcomes_tail (cfg : EnvConfig) (prov : ProviderEnv)
    (body : InferRequestBody) (model : ModelDef) (genId : String) (now : Int) :
    ∀ (idxs : List Nat) (w : World),
      tailFrom w (collectOutcomes cfg prov body model genId now idxs w).1 := by
  intro idxs
  induction idxs with
  | nil => intro w; exact tailFrom_refl w
  | cons j js ih =>
      intro w
      unfold collectOutcomes
      exact tailFrom_trans (runVariantCaught_tail cfg prov body model genId now j w)
        (ih _)

theorem batchWindows_tail (cfg : EnvConfig) (prov : ProviderEnv)
    (body : InferRequestBody) (model : ModelDef) (genId : String) (now : Int)
    (n : Nat) :
    ∀ (fuel i : Nat), n - i ≤ fuel → ∀ (acc : BatchAcc) (w : World),
      tailFrom w (batchWindows cfg prov body model genId now n i acc w).world := by
  intro fuel
  induction fuel with
  | zero =>
      intro i hle acc w
      unfold batchWindows
      have hni : ¬ i < n := by omega
      simp [hni, Flow.world, tailFrom_refl]
  | succ k ih =>
      intro i hle acc w
      unfold batchWindows
      by_cases hni : i < n
      · simp only [hni, dif_pos]
        have hco := collectOutcomes_tail cfg prov body model genId now
          ((List.range (min 3 (n - i))).map (fun j => i + j)) w
        cases hco' : collectOutcomes cfg prov body model genId now
            ((List.range (min 3 (n - i))).map (fun j => i + j)) w with
        | mk w1 outcomes =>
            rw [hco'] at hco
            simp only []
            cases hacc : accumulateOutcomes acc outcomes with
            | error u => simpa [hacc, Flow.world] using hco
            | ok acc' =>
                simp only [hacc]
                exact tailFrom_trans hco (ih (i + 3) (by omega) acc' w1)
      · simp [hni, Flow.world, tailFrom_refl]

theorem uploadLoop_tail (cfg : EnvConfig) (prov : ProviderEnv)
    (userId : Option String) (genId gtype : String) :
    ∀ (urls : List String) (i : Nat) (acc : List String) (w : World),
      tailFrom w (uploadLoop cfg prov userId genId gtype urls i acc w).1 := by
  intro urls
  induction urls with
  | nil => intro i acc w; exact tailFrom_refl w
  | cons u rest ih =>
      intro i acc w
      unfold uploadLoop
      have ht := tryUploadToStorage_tail cfg prov userId
        (some (if i == 0 then genId else genId ++ "_v" ++ toString i)) u gtype w
      rcases h : tryUploadToStorage cfg prov userId
          (some (if i == 0 then genId else genId ++ "_v" ++ toString i)) u gtype w with ⟨w', r⟩
      rw [h] at ht
      simp only [h]
      cases r with
      | error e => simpa using ht
      | ok o =>
          cases o with
          | none => exact tailFrom_trans (by simpa using ht) (ih _ _ _)
          | some url => exact tailFrom_trans (by simpa using ht) (ih _ _ _)

theorem kieFinish_tail (cfg : EnvConfig) (prov : ProviderEnv)
    (body : InferRequestBody) (p1 : Phase1Out) (genId : String) (now : Int)
    (ocEff : Int) (acc : BatchAcc) (totalDuration : Int)
    (newBalance : Option Int) (skipped : Bool) (skipReason : Option SbReason)
    (w : World) :
    tailFrom w (kieFinish cfg prov body p1 genId now ocEff acc totalDuration
      newBalance skipped skipReason w).world := by
  unfold kieFinish
  have hmd : ∀ (w1 : World) (urls : List String),
      tailFrom w1 (tryUpdateGenerationSuccess cfg (some genId) urls
        (Json.obj
          [("taskIds", Json.arr (acc.allTaskIds.map Json.str)),
           ("duration", Json.num totalDuration),
           ("outputsCount", Json.num ocEff),
           ("originalUrls", Json.arr (acc.allKieUrls.map Json.str))]) now w1).1 :=
    fun w1 urls => tryUpdateGenerationSuccess_tail cfg (some genId) urls _ now w1
  have hul := uploadLoop_tail cfg prov p1.userId genId p1.generationType
    acc.allKieUrls 0 [] w
  rcases hu : uploadLoop cfg prov p1.userId genId p1.generationType acc.allKieUrls 0 [] w
    with ⟨w1, r⟩
  rw [hu] at hul
  simp only [hu]
  cases r with
  | ok urls =>
      have hus := hmd w1 urls
      rcases hs : tryUpdateGenerationSuccess cfg (some genId) urls
          (Json.obj
            [("taskIds", Json.arr (acc.allTaskIds.map Json.str)),
             ("duration", Json.num totalDuration),
             ("outputsCount", Json.num ocEff),
             ("originalUrls", Json.arr (acc.allKieUrls.map Json.str))]) now w1
        with ⟨w2, r2⟩
      rw [hs] at hus
      cases r2 with
      | ok u => simpa [hs, Flow.world] using tailFrom_trans (by simpa using hul) hus
      | error e =>
          by_cases hopt : cfg.supabaseOptional = true
          · simpa [hs, hopt, Flow.world] using tailFrom_trans (by simpa using hul) hus
          · simpa [hs, hopt, Flow.world] using tailFrom_trans (by simpa using hul) hus
  | error e =>
      by_cases hopt : cfg.supabaseOptional = true
      · simp only [hopt]
        have hus := hmd w1 acc.allKieUrls
        rcases hs : tryUpdateGenerationSuccess cfg (some genId) acc.allKieUrls
            (Json.obj
              [("taskIds", Json.arr (acc.allTaskIds.map Json.str)),
               ("duration", Json.num totalDuration),
               ("outputsCount", Json.num ocEff),
               ("originalUrls", Json.arr (acc.allKieUrls.map Json.str))]) now w1
          with ⟨w2, r2⟩
        rw [hs] at hus
        cases r2 with
        | ok u => simpa [hs, Flow.world] using tailFrom_trans (by simpa using hul) hus
        | error e2 =>
            simpa [hs, hopt, Flow.world] using tailFrom_trans (by simpa using hul) hus
      · simp only [hopt]
        have huf := tryUpdateGenerationFailed_tail cfg (some genId)
          ("Storage upload failed: " ++ e.message) now w1
        rcases hf : tryUpdateGenerationFailed cfg (some genId)
            ("Storage upload failed: " ++ e.message) now w1 with ⟨w2, r2⟩
        rw [hf] at huf
        cases r2 with
        | ok u => simpa [hf, hopt, Flow.world] using tailFrom_trans (by simpa using hul) huf
        | error e2 =>
            simpa [hf, hopt, Flow.world] using tailFrom_trans (by simpa using hul) huf

theorem batchWindows_tail' (cfg : EnvConfig) (prov : ProviderEnv)
    (body : InferRequestBody) (model : ModelDef) (genId : String) (now : Int)
    (n i : Nat) (acc : BatchAcc) (w : World) :
    tailFrom w (batchWindows cfg prov body model genId now n i acc w).world :=
  batchWindows_tail cfg prov body model genId now n (n - i) i (Nat.le_refl _) acc w

/-- Every response carried by a `Flow` (whether delivered via `respond` or
`next`) either has no `generationId` in its meta or carries exactly
`genId`. -/
def flowRespMetaGen (genId : String) (f : Flow InferResponse) : Prop :=
  ∀ w' r, (f = .respond w' r ∨ f = .next w' r) → ∀ mi, r.meta = some mi →
    mi.generationId = none ∨ mi.generationId = some genId

theorem metaGen_of_raise (genId : String) (w : World) (e : ThrownError) :
    flowRespMetaGen genId (.raise w e) := by
  intro w' r h mi _
  rcases h with h | h <;> cases h

theorem metaGen_of_respond (genId : String) (w : World) (r : InferResponse)
    (hres : ∀ mi, r.meta = some mi →
      mi.generationId = none ∨ mi.generationId = some genId) :
    flowRespMetaGen genId (.respond w r) := by
  intro w' r' h mi hmi
  rcases h with h | h
  · cases h
    exact hres mi hmi
  · cases h

theorem kieFinish_meta (cfg : EnvConfig) (prov : ProviderEnv)
    (body : InferRequestBody) (p1 : Phase1Out) (genId : String) (now : Int)
    (ocEff : Int) (acc : BatchAcc) (totalDuration : Int)
    (newBalance : Option Int) (skipped : Bool) (skipReason : Option SbReason)
    (w : World) :
    flowRespMetaGen genId (kieFinish cfg prov body p1 genId now ocEff acc
      totalDuration newBalance skipped skipReason w) := by
  intro w' r hr mi hmi
  unfold kieFinish at hr
  rcases hu : uploadLoop cfg prov p1.userId genId p1.generationType acc.allKieUrls 0 [] w
    with ⟨w1, ru⟩
  rw [hu] at hr
  have hfin : ∀ (urls : List String) (w2 : World) (sk : Bool) (sr : Option SbReason),
      (Flow.respond w2
        { status := 200, success := true, urls := some urls, text := none,
          error := none, newBalance := newBalance,
          meta := some
            { modelId := body.modelId, provider := some "kie",
              generationId := if genId == "" then none else some genId,
              taskIds := acc.allTaskIds, duration := totalDuration,
              outputsCountM := some ocEff,
              succeededCount := some (acc.succeededCount : Int),
              failedCount := some (acc.failedCount : Int),
              mock := false, supabaseSkipped := sk,
              skipReason := sr } } : Flow InferResponse) = .respond w' r ∨
      (Flow.respond w2
        { status := 200, success := true, urls := some urls, text := none,
          error := none, newBalance := newBalance,
          meta := some
            { modelId := body.modelId, provider := some "kie",
              generationId := if genId == "" then none else some genId,
              taskIds := acc.allTaskIds, duration := totalDuration,
              outputsCountM := some ocEff,
              succeededCount := some (acc.succeededCount : Int),
              failedCount := some (acc.failedCount : Int),
              mock := false, supabaseSkipped := sk,
              skipReason := sr } } : Flow InferResponse) = .next w' r →
      mi.generationId = none ∨ mi.generationId = some genId := by
    intro urls w2 sk sr h
    rcases h with h | h
    · cases h
      cases hmi
      by_cases hg : genId == ""
      · left; simp [hg]
      · right; simp [hg]
    · cases h
  cases ru with
  | ok urls =>
      simp only at hr
      rcases hs : tryUpdateGenerationSuccess cfg (some genId) urls
          (Json.obj
            [("taskIds", Json.arr (acc.allTaskIds.map Json.str)),
             ("duration", Json.num totalDuration),
             ("outputsCount", Json.num ocEff),
             ("originalUrls", Json.arr (acc.allKieUrls.map Json.str))]) now w1
        with ⟨w2, r2⟩
      rw [hs] at hr
      cases r2 with
      | ok u =>
          simp only [] at hr
          exact hfin urls w2 skipped skipReason hr
      | error e =>
          by_cases hopt : cfg.supabaseOptional = true
          · simp only [hopt, if_true, ite_true] at hr
            exact hfin urls w2 true (some e.reason) hr
          · simp only [hopt, Bool.false_eq_true, if_false, ite_false] at hr
            exact absurd hr (by simp)
  | error e =>
      by_cases hopt : cfg.supabaseOptional = true
      · simp only [hopt, if_true, ite_true] at hr
        rcases hs : tryUpdateGenerationSuccess cfg (some genId) acc.allKieUrls
            (Json.obj
              [("taskIds", Json.arr (acc.allTaskIds.map Json.str)),
               ("duration", Json.num totalDuration),
               ("outputsCount", Json.num ocEff),
               ("originalUrls", Json.arr (acc.allKieUrls.map Json.str))]) now w1
          with ⟨w2, r2⟩
        rw [hs] at hr
        cases r2 with
        | ok u =>
            simp only [] at hr
            exact hfin acc.allKieUrls w2 true (some e.reason) hr
        | error e2 =>
            by_cases hopt2 : cfg.supabaseOptional = true
            · simp only [hopt2, if_true, ite_true] at hr
              exact hfin acc.allKieUrls w2 true (some e2.reason) hr
            · exact absurd hopt hopt2
      · simp only [hopt, if_false, ite_false, Bool.false_eq_true] at hr
        rcases hf : tryUpdateGenerationFailed cfg (some genId)
            ("Storage upload failed: " ++ e.message) now w1 with ⟨w2, r2⟩
        rw [hf] at hr
        cases r2 with
        | ok u =>
            simp only [] at hr
            rcases hr with hr | hr
            · cases hr
              cases hmi
            · cases hr
        | error e2 =>
            simp only [] at hr
            exact absurd hr (by simp)

/-- The `runSingleInference` closure only continues or throws; it never
renders an HTTP response itself (its 400 value is returned *as a value*). -/
theorem runSingleInference_no_respond (cfg : EnvConfig) (prov : ProviderEnv)
    (body : InferRequestBody) (model : ModelDef) (genId : String) (now : Int)
    (callIdx : Nat) (w : World) (w1 : World) (r1 : InferResponse) :
    ¬ runSingleInference cfg prov body model genId now callIdx w = .respond w1 r1 := by
  unfold runSingleInference
  intro h
  split at h
  · cases hk : prov.kie callIdx <;> rw [hk] at h <;> cases h
  · split at h
    · split at h
      · split at h
        · rcases hf : tryUpdateGenerationFailed cfg (some genId)
              "Подключите входное изображение" now w with ⟨wa, ra⟩
          rw [hf] at h
          cases ra <;> simp only [] at h <;> cases h
        · cases hk : prov.kie callIdx <;> rw [hk] at h <;> cases h
      · cases hk : prov.kie callIdx <;> rw [hk] at h <;> cases h
    · cases h

/-- The batch loop only continues or throws; it never renders a response. -/
theorem batchWindows_no_respond (cfg : EnvConfig) (prov : ProviderEnv)
    (body : InferRequestBody) (model : ModelDef) (genId : String) (now : Int)
    (n : Nat) :
    ∀ (fuel i : Nat), n - i ≤ fuel → ∀ (acc : BatchAcc) (w w1 : World)
      (r1 : InferResponse),
      ¬ batchWindows cfg prov body model genId now n i acc w = .respond w1 r1 := by
  intro fuel
  induction fuel with
  | zero =>
      intro i hle acc w w1 r1
      unfold batchWindows
      have hni : ¬ i < n := by omega
      simp [hni]
  | succ k ih =>
      intro i hle acc w w1 r1
      unfold batchWindows
      by_cases hni : i < n
      · simp only [hni, dif_pos]
        rcases collectOutcomes cfg prov body model genId now
            ((List.range (min 3 (n - i))).map (fun j => i + j)) w with ⟨wa, os⟩
        simp only []
        cases accumulateOutcomes acc os with
        | error u => simp
        | ok acc' =>
            simp only []
            exact ih (i + 3) (by omega) acc' wa w1 r1
      · simp [hni]

theorem kieBranch_tail (cfg : EnvConfig) (prov : ProviderEnv)
    (body : InferRequestBody) (p1 : Phase1Out) (genId : String) (now : Int)
    (newBalance : Option Int) (skipped : Bool) (skipReason : Option SbReason)
    (w : World) :
    tailFrom w (kieBranch cfg prov body p1 genId now newBalance skipped
      skipReason w).world ∧
    flowRespMetaGen genId (kieBranch cfg prov body p1 genId now newBalance
      skipped skipReason w) := by
  unfold kieBranch
  by_cases hkey : jsFalsyOpt cfg.kieApiKey = true
  · simp only [hkey, if_true, ite_true]
    have ht := tryUpdateGenerationFailed_tail cfg (some genId)
      "Не настроен провайдер. Проверьте KIE_API_KEY в окружении." now w
    rcases h : tryUpdateGenerationFailed cfg (some genId)
        "Не настроен провайдер. Проверьте KIE_API_KEY в окружении." now w with ⟨w', r⟩
    rw [h] at ht
    cases r with
    | ok u =>
        refine ⟨by simpa [Flow.world] using ht, ?_⟩
        exact metaGen_of_respond _ _ _ (fun mi hmi => by cases hmi)
    | error e =>
        refine ⟨by simpa [Flow.world] using ht, ?_⟩
        exact metaGen_of_raise _ _ _
  · simp only [hkey, Bool.false_eq_true, if_false, ite_false]
    by_cases hoc : (body.outputsCount.getD 1 == 1) = true
    · simp only [hoc, if_true, ite_true]
      have ht := runSingleInference_tail cfg prov body p1.model genId now 0 w
      cases hr : runSingleInference cfg prov body p1.model genId now 0 w with
      | raise w1 e =>
          rw [hr] at ht
          refine ⟨by simpa [Flow.world] using ht, ?_⟩
          exact metaGen_of_raise _ _ _
      | respond w1 r1 =>
          exact absurd hr (runSingleInference_no_respond cfg prov body p1.model genId
            now 0 w w1 r1)
      | next w1 sr =>
          rw [hr] at ht
          cases sr with
          | inferred urls t d =>
              refine ⟨tailFrom_trans (by simpa [Flow.world] using ht)
                (kieFinish_tail cfg prov body p1 genId now _ _ _ _ _ _ w1), ?_⟩
              exact kieFinish_meta cfg prov body p1 genId now _ _ _ _ _ _ w1
          | respValue rv =>
              refine ⟨by simpa [Flow.world] using ht, ?_⟩
              exact metaGen_of_raise _ _ _
    · simp only [hoc, Bool.false_eq_true, if_false, ite_false]
      have ht := batchWindows_tail' cfg prov body p1.model genId now
        (body.outputsCount.getD 1).toNat 0 ⟨[], [], 0, 0⟩ w
      cases hb : batchWindows cfg prov body p1.model genId now
          (body.outputsCount.getD 1).toNat 0 ⟨[], [], 0, 0⟩ w with
      | raise w1 e =>
          rw [hb] at ht
          refine ⟨by simpa [Flow.world] using ht, ?_⟩
          exact metaGen_of_raise _ _ _
      | respond w1 r1 =>
          exact absurd hb (batchWindows_no_respond cfg prov body p1.model genId now
            (body.outputsCount.getD 1).toNat _ 0 (Nat.le_refl _) ⟨[], [], 0, 0⟩ w w1 r1)
      | next w1 acc =>
          rw [hb] at ht
          by_cases hz : (acc.succeededCount == 0) = true
          · simp only [hz, if_true, ite_true]
            refine ⟨by simpa [Flow.world] using ht, ?_⟩
            exact metaGen_of_raise _ _ _
          · simp only [hz, Bool.false_eq_true, if_false, ite_false]
            refine ⟨tailFrom_trans (by simpa [Flow.world] using ht)
              (kieFinish_tail cfg prov body p1 genId now _ _ _ _ _ _ w1), ?_⟩
            exact kieFinish_meta cfg prov body p1 genId now _ _ _ _ _ _ w1

theorem anthropicBranch_tail (cfg : EnvConfig) (prov : ProviderEnv)
    (body : InferRequestBody) (genId : String) (now : Int)
    (newBalance : Option Int) (skipped : Bool) (skipReason : Option SbReason)
    (w : World) :
    tailFrom w (anthropicBranch cfg prov body genId now newBalance skipped
      skipReason w).world ∧
    flowRespMetaGen genId (anthropicBranch cfg prov body genId now newBalance
      skipped skipReason w) := by
  have hfail : ∀ (msg : String) (w0 : World),
      tailFrom w0 (Flow.world (match tryUpdateGenerationFailed cfg (some genId) msg now w0 with
        | (w', .error e) => (Flow.raise w' (ThrownError.sbUnavailable e) : Flow InferResponse)
        | (w', .ok _) => Flow.respond w' (errResponse 500 msg))) ∧
      flowRespMetaGen genId (match tryUpdateGenerationFailed cfg (some genId) msg now w0 with
        | (w', .error e) => (Flow.raise w' (ThrownError.sbUnavailable e) : Flow InferResponse)
        | (w', .ok _) => Flow.respond w' (errResponse 500 msg)) := by
    intro msg w0
    have ht := tryUpdateGenerationFailed_tail cfg (some genId) msg now w0
    rcases hf : tryUpdateGenerationFailed cfg (some genId) msg now w0 with ⟨w', ra⟩
    rw [hf] at ht
    cases ra with
    | ok u =>
        refine ⟨by simpa [Flow.world] using ht, ?_⟩
        exact metaGen_of_respond _ _ _ (fun mi hmi => by cases hmi)
    | error e =>
        refine ⟨by simpa [Flow.world] using ht, ?_⟩
        exact metaGen_of_raise _ _ _
  unfold anthropicBranch
  by_cases hkey : jsFalsyOpt cfg.anthropicApiKey = true
  · simp only [hkey, if_true, ite_true]
    obtain ⟨h1, h2⟩ := hfail "ANTHROPIC_API_KEY not configured" w
    exact ⟨h1, h2⟩
  · simp only [hkey, Bool.false_eq_true, if_false, ite_false]
    have hw1 : tailFrom w { w with events := w.events ++ [Event.anthropicCalled] } :=
      tailFrom_append w [Event.anthropicCalled] (by simp [phase3Event])
    cases ha : prov.anthropic with
    | error msg =>
        obtain ⟨h1, h2⟩ := hfail msg { w with events := w.events ++ [Event.anthropicCalled] }
        exact ⟨tailFrom_trans hw1 h1, h2⟩
    | ok textContent =>
        by_cases htext : (textContent == "") = true
        · simp only [htext, if_true, ite_true]
          obtain ⟨h1, h2⟩ := hfail "No text in response"
            { w with events := w.events ++ [Event.anthropicCalled] }
          exact ⟨tailFrom_trans hw1 h1, h2⟩
        · simp only [htext, Bool.false_eq_true, if_false, ite_false]
          have hus := tryUpdateGenerationSuccess_tail cfg (some genId) []
            (Json.obj
              [("provider", Json.str "anthropic"),
               ("model", Json.str (match cfg.anthropicModelEnv with
                 | some m => m
                 | none => "claude-3-5-sonnet-20241022")),
               ("duration", Json.num prov.anthropicDuration)]) now
            { w with events := w.events ++ [Event.anthropicCalled] }
          rcases hs : tryUpdateGenerationSuccess cfg (some genId) []
              (Json.obj
                [("provider", Json.str "anthropic"),
                 ("model", Json.str (match cfg.anthropicModelEnv with
                   | some m => m
                   | none => "claude-3-5-sonnet-20241022")),
                 ("duration", Json.num prov.anthropicDuration)]) now
              { w with events := w.events ++ [Event.anthropicCalled] } with ⟨w', r2⟩
          rw [hs] at hus
          cases r2 with
          | ok u =>
              refine ⟨tailFrom_trans hw1 (by simpa using hus), ?_⟩
              exact metaGen_of_respond _ _ _ (fun mi hmi => by cases hmi; exact Or.inl rfl)
          | error e =>
              by_cases hopt : cfg.supabaseOptional = true
              · simp only [hopt, if_true, ite_true]
                refine ⟨tailFrom_trans hw1 (by simpa using hus), ?_⟩
                exact metaGen_of_respond _ _ _ (fun mi hmi => by cases hmi; exact Or.inl rfl)
              · simp only [hopt, Bool.false_eq_true, if_false, ite_false]
                obtain ⟨h1, h2⟩ := hfail e.message w'
                exact ⟨tailFrom_trans hw1 (tailFrom_trans (by simpa using hus) h1), h2⟩

theorem outerCatch_tail (cfg : EnvConfig) (generationId : Option String)
    (now : Int) (w : World) (e : ThrownError) :
    tailFrom w (outerCatch cfg generationId now w e).1 ∧
    ∀ mi, (outerCatch cfg generationId now w e).2.meta = some mi → False := by
  unfold outerCatch
  have hW : tailFrom w (match generationId with
      | none => w
      | some gid => (tryUpdateGenerationFailed cfg (some gid) e.message now w).1) := by
    cases generationId with
    | none => exact tailFrom_refl w
    | some gid => exact tryUpdateGenerationFailed_tail cfg (some gid) e.message now w
  cases e with
  | kieApi m code => exact ⟨hW, by intro mi hmi; cases hmi⟩
  | sbUnavailable e' => exact ⟨hW, by intro mi hmi; cases hmi⟩
  | js m => exact ⟨hW, by intro mi hmi; cases hmi⟩

/-- The strict-mode happy prefix of the pipeline: with a resolved user, a
valid body, an enabled model, mock off, Supabase configured and reachable,
the balance known and sufficient, and a fresh generation id, the request
reads the balance, creates the record, and logs exactly one debit — in that
order — before anything else happens; the rest of the run touches neither
the ledger nor those events, and every response meta either has no
`generationId` or carries exactly the fresh id. -/
theorem POST_strict_core (cfg : EnvConfig) (uid : String)
    (body : InferRequestBody) (prov : ProviderEnv) (model : ModelDef)
    (requestId freshGenId : String) (now : Int) (w : World)
    (huid : ¬ uid = "")
    (henv : cfg.sbEnvConfigured = true) (hreach : cfg.sbReachable = true)
    (hmock : cfg.useMockInference = false)
    (hmid : ¬ body.modelId = "") (hprompt : ¬ body.prompt = "")
    (hmodel : getModelById body.modelId = some model)
    (henabled : model.enabled = true)
    (hbal : ¬ ledgerBalance w.ledger < model.creditCost)
    (hfresh : w.gens.any (fun g => g.id == freshGenId) = false) :
    (POST cfg (.ok (some uid)) body prov requestId freshGenId now w).1.ledger =
      { account := some (ledgerBalance w.ledger + (- model.creditCost)),
        transactions := w.ledger.transactions ++
          [{ amount := - model.creditCost, txnType := "generation",
             description := some (model.title ++ ": " ++ body.prompt.take 100),
             generation_id := some freshGenId }] }
  ∧ (∃ Δ, (POST cfg (.ok (some uid)) body prov requestId freshGenId now w).1.events =
        w.events ++
          [Event.balanceChecked (ledgerBalance w.ledger),
           Event.recordCreated freshGenId,
           Event.debitAttempted (- model.creditCost),
           Event.debitLogged freshGenId (- model.creditCost)] ++ Δ
      ∧ ∀ e ∈ Δ, phase3Event e = true)
  ∧ (∀ mi, (POST cfg (.ok (some uid)) body prov requestId freshGenId now w).2.meta
        = some mi → mi.generationId = none ∨ mi.generationId = some freshGenId) := by
  rcases hgb : get_user_balance w.ledger with ⟨l1, bv⟩
  have hl1t : l1.transactions = w.ledger.transactions := by
    have h := get_user_balance_fst_transactions w.ledger
    rw [hgb] at h
    exact h
  have hl1b : ledgerBalance l1 = ledgerBalance w.ledger := by
    have h := get_user_balance_fst_balance w.ledger
    rw [hgb] at h
    exact h
  -- step 1-5
  have hphase1 := phase1_known_balance_ok cfg uid body prov model w huid henv hreach
    hmock hmid hprompt hmodel henabled hbal
  rw [hgb] at hphase1
  set w1 : World :=
    { w with ledger := l1,
             events := w.events ++ [Event.balanceChecked (ledgerBalance w.ledger)] }
    with hw1
  -- step 6
  have hfresh1 : w1.gens.any (fun g => g.id == freshGenId) = false := hfresh
  have hcreate := tryCreateGeneration_up cfg uid freshGenId
    (if model.capability == "video" then "video" else "photo") body.modelId body.prompt
    model.creditCost
    (Json.obj
      ([("params", body.paramsJson), ("requestId", Json.str requestId)] ++
       (match body.imageUrl with | some u => [("imageUrl", Json.str u)] | none => [])))
    now w1 henv hreach hfresh1
  set w2 : World :=
    { w1 with
        gens := w1.gens ++
          [{ id := freshGenId, user_id := uid,
             genType := if model.capability == "video" then "video" else "photo",
             model := body.modelId, prompt := body.prompt, status := "processing",
             result_urls := [],
             credits_used := model.creditCost,
             metadata := Json.obj
               ([("params", body.paramsJson), ("requestId", Json.str requestId)] ++
                (match body.imageUrl with
                 | some u => [("imageUrl", Json.str u)] | none => [])),
             created_at := now, updated_at := now }],
        events := w1.events ++ [Event.recordCreated freshGenId] } with hw2
  -- step 7
  have hok : ¬ (- model.creditCost < 0 ∧
      ledgerBalance w2.ledger + (- model.creditCost) < 0) := by
    have : ledgerBalance w2.ledger = ledgerBalance w.ledger := hl1b
    rw [this]
    omega
  have hadjust := tryAdjustCredits_up_ok cfg uid "generation"
    (model.title ++ ": " ++ body.prompt.take 100) (some freshGenId)
    (- model.creditCost) w2 henv hreach hok
  set w3 : World :=
    { w2 with
        ledger :=
          { account := some (ledgerBalance w2.ledger + (- model.creditCost)),
            transactions := w2.ledger.transactions ++
              [{ amount := - model.creditCost, txnType := "generation",
                 description := some (model.title ++ ": " ++ body.prompt.take 100),
                 generation_id := some freshGenId }] },
        events := w2.events ++
          [Event.debitAttempted (- model.creditCost),
           Event.debitLogged ((some freshGenId).getD "") (- model.creditCost)] } with hw3
  -- the ledger and event prefix carried into the branch
  have hw3ledger : w3.ledger =
      { account := some (ledgerBalance w.ledger + (- model.creditCost)),
        transactions := w.ledger.transactions ++
          [{ amount := - model.creditCost, txnType := "generation",
             description := some (model.title ++ ": " ++ body.prompt.take 100),
             generation_id := some freshGenId }] } := by
    rw [hw3]
    have h2l : w2.ledger = l1 := rfl
    simp only [h2l, hl1t, hl1b]
  have hw3events : w3.events = w.events ++
      [Event.balanceChecked (ledgerBalance w.ledger),
       Event.recordCreated freshGenId,
       Event.debitAttempted (- model.creditCost),
       Event.debitLogged freshGenId (- model.creditCost)] := by
    rw [hw3, hw2, hw1]
    simp
  -- the branch taken after step 7
  have hbranch :
      tailFrom w3 (if model.provider == "anthropic" then
          (anthropicBranch cfg prov body freshGenId now
            (some (ledgerBalance w2.ledger + (- model.creditCost))) false none w3)
        else
          (kieBranch cfg prov body
            { userId := some uid, model := model,
              currentBalance := some (ledgerBalance w.ledger),
              generationType := if model.capability == "video" then "video" else "photo",
              supabaseSkipped := false, skipReason := none } freshGenId now
            (some (ledgerBalance w2.ledger + (- model.creditCost))) false none w3)).world ∧
      flowRespMetaGen freshGenId (if model.provider == "anthropic" then
          (anthropicBranch cfg prov body freshGenId now
            (some (ledgerBalance w2.ledger + (- model.creditCost))) false none w3)
        else
          (kieBranch cfg prov body
            { userId := some uid, model := model,
              currentBalance := some (ledgerBalance w.ledger),
              generationType := if model.capability == "video" then "video" else "photo",
              supabaseSkipped := false, skipReason := none } freshGenId now
            (some (ledgerBalance w2.ledger + (- model.creditCost))) false none w3)) := by
    by_cases hpa : (model.provider == "anthropic") = true
    · simp only [hpa, if_true, ite_true]
      exact anthropicBranch_tail cfg prov body freshGenId now _ false none w3
    · simp only [hpa, Bool.false_eq_true, if_false, ite_false]
      exact kieBranch_tail cfg prov body _ freshGenId now _ false none w3
  -- assemble POST
  unfold POST
  rw [hphase1]
  simp only []
  unfold phase2
  simp only []
  rw [hcreate]
  simp only []
  rw [hadjust]
  simp only []
  cases hbr : (if model.provider == "anthropic" then
      (anthropicBranch cfg prov body freshGenId now
        (some (ledgerBalance w2.ledger + (- model.creditCost))) false none w3)
    else
      (kieBranch cfg prov body
        { userId := some uid, model := model,
          currentBalance := some (ledgerBalance w.ledger),
          generationType := if model.capability == "video" then "video" else "photo",
          supabaseSkipped := false, skipReason := none } freshGenId now
        (some (ledgerBalance w2.ledger + (- model.creditCost))) false none w3)) with
  | next wf rf =>
      rw [hbr] at hbranch
      obtain ⟨⟨hlf, Δ, hev, hph⟩, hmeta⟩ := hbranch
      refine ⟨by rw [show (Flow.next wf rf).world = wf from rfl] at hlf;
                 rw [hlf, hw3ledger],
             ⟨Δ, ?_, hph⟩, ?_⟩
      · rw [show (Flow.next wf rf).world = wf from rfl] at hev
        rw [hev, hw3events]
      · intro mi hmi
        exact hmeta wf rf (Or.inr rfl) mi hmi
  | respond wf rf =>
      rw [hbr] at hbranch
      obtain ⟨⟨hlf, Δ, hev, hph⟩, hmeta⟩ := hbranch
      refine ⟨by rw [show (Flow.respond wf rf).world = wf from rfl] at hlf;
                 rw [hlf, hw3ledger],
             ⟨Δ, ?_, hph⟩, ?_⟩
      · rw [show (Flow.respond wf rf).world = wf from rfl] at hev
        rw [hev, hw3events]
      · intro mi hmi
        exact hmeta wf rf (Or.inl rfl) mi hmi
  | raise wf ef =>
      rw [hbr] at hbranch
      obtain ⟨⟨hlf, Δ, hev, hph⟩, _hmeta⟩ := hbranch
      rw [show (Flow.raise wf ef : Flow InferResponse).world = wf from rfl] at hlf hev
      obtain ⟨⟨hl2, Δ2, hev2, hph2⟩, hnometa⟩ :=
        outerCatch_tail cfg (some freshGenId) now wf ef
      refine ⟨by rw [hl2, hlf, hw3ledger], ?_, ?_⟩
      · refine ⟨Δ ++ Δ2, ?_, ?_⟩
        · rw [hev2, hev, hw3events]
          simp [List.append_assoc]
        · intro e he
          rcases List.mem_append.mp he with h | h
          · exact hph e h
          · exact hph2 e h
      · intro mi hmi
        exact absurd hmi (by intro h; exact hnometa mi h)

/-- C6 counterexample: in degraded mode (`INFER_SUPABASE_OPTIONAL=true`,
Supabase env missing, anonymous caller) the request reaches a provider
invocation and even succeeds, yet *no* generation record was ever created —
the whole observable trace of the run is the single provider call. -/
theorem C6_cex_degraded_provider_without_record :
    (POST degradedEnvMissingCfg (.ok none) bodySeedream provSingleOk
        "req-1" "gen-1" 100 emptyWorld).1.events = [Event.kieTaskStarted 0]
  ∧ (∀ gid, Event.recordCreated gid ∉
      (POST degradedEnvMissingCfg (.ok none) bodySeedream provSingleOk
        "req-1" "gen-1" 100 emptyWorld).1.events)
  ∧ (POST degradedEnvMissingCfg (.ok none) bodySeedream provSingleOk
        "req-1" "gen-1" 100 emptyWorld).1.gens = []
  ∧ (POST degradedEnvMissingCfg (.ok none) bodySeedream provSingleOk
        "req-1" "gen-1" 100 emptyWorld).2.success = true := by
  refine ⟨rfl, ?_, rfl, rfl⟩
  intro gid h
  exact absurd (List.mem_singleton.mp h) (by simp)

/-- C6 (amended): on the strict happy path the record-creation step runs
strictly before the ledger debit and before any provider invocation: the
event trace is exactly balance-read, record-created, debit-attempted,
debit-logged, followed only by post-debit events (provider calls, storage
writes, terminal record transitions) — and the created row always has
status `"processing"`.  (In degraded mode the record may not exist at all;
see the counterexample.) -/
theorem C6_amended_record_created_before_debit_and_provider (cfg : EnvConfig)
    (uid : String) (body : InferRequestBody) (prov : ProviderEnv)
    (model : ModelDef) (requestId freshGenId : String) (now : Int) (w : World)
    (huid : ¬ uid = "")
    (henv : cfg.sbEnvConfigured = true) (hreach : cfg.sbReachable = true)
    (hmock : cfg.useMockInference = false)
    (hmid : ¬ body.modelId = "") (hprompt : ¬ body.prompt = "")
    (hmodel : getModelById body.modelId = some model)
    (henabled : model.enabled = true)
    (hbal : ¬ ledgerBalance w.ledger < model.creditCost)
    (hfresh : w.gens.any (fun g => g.id == freshGenId) = false) :
    (∃ Δ, (POST cfg (.ok (some uid)) body prov requestId freshGenId now w).1.events =
        w.events ++
          [Event.balanceChecked (ledgerBalance w.ledger),
           Event.recordCreated freshGenId,
           Event.debitAttempted (- model.creditCost),
           Event.debitLogged freshGenId (- model.creditCost)] ++ Δ
      ∧ ∀ e ∈ Δ, phase3Event e = true)
  ∧ (∀ (gens : List Generation) (u g gt m p : String) (c : Int) (md : Json)
       (n : Int) (r : List Generation × Generation),
       createGeneration gens u g gt m p c md n = .ok r → r.2.status = "processing") := by
  refine ⟨(POST_strict_core cfg uid body prov model requestId freshGenId now w huid henv
    hreach hmock hmid hprompt hmodel henabled hbal hfresh).2.1, ?_⟩
  intro gens u g gt m p c md n r h
  unfold createGeneration at h
  split at h
  · cases h
  · cases h
    rfl

theorem C6_amended_record_created_before_debit_and_provider_witness :
    (¬ "user-1" = "" ∧ strictCfg.sbEnvConfigured = true ∧
     ¬ ledgerBalance (worldWithBalance 10).ledger < 8 ∧
     ((worldWithBalance 10).gens.any (fun g => g.id == "gen-1")) = false)
  ∧ (∃ Δ, (POST strictCfg (.ok (some "user-1")) bodySeedream provSingleOk
        "req-1" "gen-1" 100 (worldWithBalance 10)).1.events =
      (worldWithBalance 10).events ++
        [Event.balanceChecked 10, Event.recordCreated "gen-1",
         Event.debitAttempted (-8), Event.debitLogged "gen-1" (-8)] ++ Δ
      ∧ ∀ e ∈ Δ, phase3Event e = true) := by
  have hm : getModelById bodySeedream.modelId =
      some { id := "seedream_image", title := "Seedream (Image)", provider := "kie-market",
             capability := "image", enabled := true, creditCost := 8,
             kieModel := some "bytedance/seedream", kieProvider := some "market" } := by
    decide
  have h := C6_amended_record_created_before_debit_and_provider strictCfg "user-1"
    bodySeedream provSingleOk _ "req-1" "gen-1" 100 (worldWithBalance 10) (by decide)
    rfl rfl rfl (by decide) (by decide) hm rfl (by decide) rfl
  exact ⟨⟨by decide, rfl, by decide, rfl⟩, h.1⟩

/-- C7 counterexample: a degraded-mode run returns a successful response
whose meta carries `generationId = "gen-1"`, while the ledger holds *no*
transaction at all — no debit referencing the response's generation id
exists. -/
theorem C7_cex_degraded_success_without_debit :
    (POST degradedEnvMissingCfg (.ok none) bodySeedream provSingleOk
        "req-1" "gen-1" 100 emptyWorld).2.success = true
  ∧ ((POST degradedEnvMissingCfg (.ok none) bodySeedream provSingleOk
        "req-1" "gen-1" 100 emptyWorld).2.meta.map (fun mi => mi.generationId))
      = some (some "gen-1")
  ∧ (POST degradedEnvMissingCfg (.ok none) bodySeedream provSingleOk
        "req-1" "gen-1" 100 emptyWorld).1.ledger.transactions = [] :=
  ⟨rfl, rfl, rfl⟩

/-- C7 (amended): on the strict happy path, the run appends exactly one
ledger transaction — a debit of the model's credit cost (signed amount
`-cost`) referencing the fresh generation id — and whenever the response's
meta carries a `generationId`, a debit transaction referencing exactly that
id with amount `-cost` exists in the final ledger. -/
theorem C7_amended_success_implies_debit (cfg : EnvConfig) (uid : String)
    (body : InferRequestBody) (prov : ProviderEnv) (model : ModelDef)
    (requestId freshGenId : String) (now : Int) (w : World)
    (huid : ¬ uid = "")
    (henv : cfg.sbEnvConfigured = true) (hreach : cfg.sbReachable = true)
    (hmock : cfg.useMockInference = false)
    (hmid : ¬ body.modelId = "") (hprompt : ¬ body.prompt = "")
    (hmodel : getModelById body.modelId = some model)
    (henabled : model.enabled = true)
    (hbal : ¬ ledgerBalance w.ledger < model.creditCost)
    (hfresh : w.gens.any (fun g => g.id == freshGenId) = false) :
    (POST cfg (.ok (some uid)) body prov requestId freshGenId now w).1.ledger.transactions
      = w.ledger.transactions ++
        [{ amount := - model.creditCost, txnType := "generation",
           description := some (model.title ++ ": " ++ body.prompt.take 100),
           generation_id := some freshGenId }]
  ∧ (∀ mi gid,
      (POST cfg (.ok (some uid)) body prov requestId freshGenId now w).2.meta = some mi →
      mi.generationId = some gid →
      ∃ t ∈ (POST cfg (.ok (some uid)) body prov requestId freshGenId now w).1.ledger.transactions,
        t.generation_id = some gid ∧ t.amount = - model.creditCost) := by
  have hcore := POST_strict_core cfg uid body prov model requestId freshGenId now w huid
    henv hreach hmock hmid hprompt hmodel henabled hbal hfresh
  have htx : (POST cfg (.ok (some uid)) body prov requestId freshGenId now w).1.ledger.transactions
      = w.ledger.transactions ++
        [{ amount := - model.creditCost, txnType := "generation",
           description := some (model.title ++ ": " ++ body.prompt.take 100),
           generation_id := some freshGenId }] := by
    rw [hcore.1]
  refine ⟨htx, ?_⟩
  intro mi gid hmi hgid
  rcases hcore.2.2 mi hmi with h | h
  · rw [hgid] at h
    cases h
  · rw [hgid] at h
    have hg : gid = freshGenId := by simpa using h
    subst hg
    refine ⟨{ amount := - model.creditCost, txnType := "generation",
              description := some (model.title ++ ": " ++ body.prompt.take 100),
              generation_id := some gid }, ?_, rfl, rfl⟩
    rw [htx]
    exact List.mem_append_right _ (List.mem_singleton.mpr rfl)

set_option maxRecDepth 4000 in
theorem C7_amended_success_implies_debit_witness :
    (¬ "user-1" = "" ∧ ¬ ledgerBalance (worldWithBalance 10).ledger < 8)
  ∧ (POST strictCfg (.ok (some "user-1")) bodySeedream provSingleOk
        "req-1" "gen-1" 100 (worldWithBalance 10)).1.ledger.transactions
      = [{ amount := -8, txnType := "generation",
           description := some ("Seedream (Image): " ++ "a cat"),
           generation_id := some "gen-1" }] := by
  have hm : getModelById bodySeedream.modelId =
      some { id := "seedream_image", title := "Seedream (Image)", provider := "kie-market",
             capability := "image", enabled := true, creditCost := 8,
             kieModel := some "bytedance/seedream", kieProvider := some "market" } := by
    decide
  have h := C7_amended_success_implies_debit strictCfg "user-1" bodySeedream provSingleOk
    _ "req-1" "gen-1" 100 (worldWithBalance 10) (by decide) rfl rfl rfl (by decide)
    (by decide) hm rfl (by decide) rfl
  refine ⟨⟨by decide, by decide⟩, ?_⟩
  rw [h.1]
  rfl

/-- A `nano_banana_edit` request with no input image. -/
def bodyNanoNoImage : InferRequestBody :=
  { modelId := "nano_banana_edit", prompt := "a cat", imageUrl := none,
    paramsJson := .obj [], outputsCount := none }

/-- The registry entry for `nano_banana_edit`. -/
def nanoBananaEditModel : ModelDef :=
  { id := "nano_banana_edit", title := "Nano Banana Edit (Image)",
    provider := "kie-market", capability := "edit", enabled := true,
    creditCost := 8, kieModel := some "google/nano-banana-edit",
    kieProvider := some "market" }

set_option maxRecDepth 8000 in
/-- C3 counterexample: a strict-mode `nano_banana_edit` request with no
`inputs.imageUrl` and a sufficient balance is debited 8 credits *before*
the missing-image check fires, and the caller receives HTTP 500 (the 400
response the closure builds is returned as the closure's value and never
sent), so the claim "400 before any debit, balance unchanged" is false at
this input. -/
theorem C3_cex_edit_without_image_is_debited :
    (POST strictCfg (.ok (some "user-1")) bodyNanoNoImage provSingleOk
        "req-1" "gen-1" 100 (worldWithBalance 10)).2.status = 500
  ∧ ¬ ((POST strictCfg (.ok (some "user-1")) bodyNanoNoImage provSingleOk
        "req-1" "gen-1" 100 (worldWithBalance 10)).2.status = 400
      ∧ ledgerBalance (POST strictCfg (.ok (some "user-1")) bodyNanoNoImage provSingleOk
        "req-1" "gen-1" 100 (worldWithBalance 10)).1.ledger = 10)
  ∧ ledgerBalance (POST strictCfg (.ok (some "user-1")) bodyNanoNoImage provSingleOk
        "req-1" "gen-1" 100 (worldWithBalance 10)).1.ledger = 2
  ∧ (POST strictCfg (.ok (some "user-1")) bodyNanoNoImage provSingleOk
        "req-1" "gen-1" 100 (worldWithBalance 10)).1.ledger.transactions
      = [{ amount := -8, txnType := "generation",
           description := some "Nano Banana Edit (Image): a cat",
           generation_id := some "gen-1" }]
  ∧ (POST strictCfg (.ok (some "user-1")) bodyNanoNoImage provSingleOk
        "req-1" "gen-1" 100 (worldWithBalance 10)).1.events
      = [Event.balanceChecked 10, Event.recordCreated "gen-1",
         Event.debitAttempted (-8), Event.debitLogged "gen-1" (-8),
         Event.recordMarkedFailed "gen-1", Event.recordMarkedFailed "gen-1"] := by
  refine ⟨rfl, ?_, rfl, rfl, rfl⟩
  intro h
  have h10 : (2 : Int) = 10 := by
    calc (2 : Int) = ledgerBalance (POST strictCfg (.ok (some "user-1")) bodyNanoNoImage
        provSingleOk "req-1" "gen-1" 100 (worldWithBalance 10)).1.ledger := rfl
    _ = 10 := h.2
  cases h10

set_option maxRecDepth 4000 in
/-- C3 (amended): for every strict-mode request invoking `nano_banana_edit`
with no `inputs.imageUrl` (single output, Kie key configured, sufficient
known balance, fresh id), the ledger debit of the model's cost is attempted
and logged *before* the missing-image validation fires; that validation
fails fast with no provider task created and marks the record failed, but
its 400 response object is returned as the closure's value, so the request
ends as a generic HTTP 500 — the caller's balance has decreased by the
cost. -/
theorem C3_amended_edit_without_image (cfg : EnvConfig) (uid : String)
    (body : InferRequestBody) (prov : ProviderEnv)
    (requestId freshGenId : String) (now : Int) (w : World)
    (huid : ¬ uid = "")
    (henv : cfg.sbEnvConfigured = true) (hreach : cfg.sbReachable = true)
    (hmock : cfg.useMockInference = false)
    (hkey : jsFalsyOpt cfg.kieApiKey = false)
    (hnb : body.modelId = "nano_banana_edit") (hprompt : ¬ body.prompt = "")
    (himg : jsFalsyOpt body.imageUrl = true)
    (hoc : body.outputsCount.getD 1 = 1)
    (hbal : ¬ ledgerBalance w.ledger < 8)
    (hfresh : w.gens.any (fun g => g.id == freshGenId) = false) :
    (POST cfg (.ok (some uid)) body prov requestId freshGenId now w).2
      = errResponse 500
          "Inference failed: Cannot read properties of undefined (reading 'length')"
  ∧ (POST cfg (.ok (some uid)) body prov requestId freshGenId now w).1.ledger.transactions
      = w.ledger.transactions ++
        [{ amount := -8, txnType := "generation",
           description := some ("Nano Banana Edit (Image)" ++ ": " ++ body.prompt.take 100),
           generation_id := some freshGenId }]
  ∧ ledgerBalance (POST cfg (.ok (some uid)) body prov requestId freshGenId now w).1.ledger
      = ledgerBalance w.ledger + (-8)
  ∧ (POST cfg (.ok (some uid)) body prov requestId freshGenId now w).1.events
      = w.events ++
        [Event.balanceChecked (ledgerBalance w.ledger),
         Event.recordCreated freshGenId,
         Event.debitAttempted (-8), Event.debitLogged freshGenId (-8),
         Event.recordMarkedFailed freshGenId, Event.recordMarkedFailed freshGenId] := by
  have hmodel : getModelById body.modelId = some nanoBananaEditModel := by
    rw [hnb]
    decide
  have hmid : ¬ body.modelId = "" := by rw [hnb]; decide
  rcases hgb : get_user_balance w.ledger with ⟨l1, bv⟩
  have hl1t : l1.transactions = w.ledger.transactions := by
    have h := get_user_balance_fst_transactions w.ledger
    rw [hgb] at h
    exact h
  have hl1b : ledgerBalance l1 = ledgerBalance w.ledger := by
    have h := get_user_balance_fst_balance w.ledger
    rw [hgb] at h
    exact h
  have hphase1 := phase1_known_balance_ok cfg uid body prov nanoBananaEditModel w huid
    henv hreach hmock hmid hprompt hmodel rfl (by simpa [nanoBananaEditModel] using hbal)
  rw [hgb] at hphase1
  simp only [show nanoBananaEditModel.capability = "edit" from rfl,
    show (("edit" : String) == "video") = false from rfl,
    Bool.false_eq_true, if_false, ite_false] at hphase1
  set w1 : World :=
    { w with ledger := l1,
             events := w.events ++ [Event.balanceChecked (ledgerBalance w.ledger)] }
    with hw1
  have hfresh1 : w1.gens.any (fun g => g.id == freshGenId) = false := hfresh
  have hcreate := tryCreateGeneration_up cfg uid freshGenId "photo"
    body.modelId body.prompt 8
    (Json.obj
      ([("params", body.paramsJson), ("requestId", Json.str requestId)] ++
       (match body.imageUrl with | some u => [("imageUrl", Json.str u)] | none => [])))
    now w1 henv hreach hfresh1
  set w2 : World :=
    { w1 with
        gens := w1.gens ++
          [{ id := freshGenId, user_id := uid, genType := "photo",
             model := body.modelId, prompt := body.prompt, status := "processing",
             result_urls := [], credits_used := 8,
             metadata := Json.obj
               ([("params", body.paramsJson), ("requestId", Json.str requestId)] ++
                (match body.imageUrl with
                 | some u => [("imageUrl", Json.str u)] | none => [])),
             created_at := now, updated_at := now }],
        events := w1.events ++ [Event.recordCreated freshGenId] } with hw2
  have hok : ¬ ((-8 : Int) < 0 ∧ ledgerBalance w2.ledger + (-8) < 0) := by
    have hb2 : ledgerBalance w2.ledger = ledgerBalance w.ledger := hl1b
    rw [hb2]
    omega
  have hadjust := tryAdjustCredits_up_ok cfg uid "generation"
    ("Nano Banana Edit (Image)" ++ ": " ++ body.prompt.take 100) (some freshGenId)
    (-8) w2 henv hreach hok
  set w3 : World :=
    { w2 with
        ledger :=
          { account := some (ledgerBalance w2.ledger + (-8)),
            transactions := w2.ledger.transactions ++
              [{ amount := -8, txnType := "generation",
                 description := some ("Nano Banana Edit (Image)" ++ ": " ++
                   body.prompt.take 100),
                 generation_id := some freshGenId }] },
        events := w2.events ++
          [Event.debitAttempted (-8),
           Event.debitLogged ((some freshGenId).getD "") (-8)] } with hw3
  have hmf := tryUpdateGenerationFailed_up cfg freshGenId
    "Подключите входное изображение" now w3 henv hreach
  set w4 : World :=
    { w3 with
        gens := updateGenerationFailed w3.gens freshGenId
          "Подключите входное изображение" now,
        events := w3.events ++ [Event.recordMarkedFailed freshGenId] } with hw4
  have hmf2 := tryUpdateGenerationFailed_up cfg freshGenId
    "Cannot read properties of undefined (reading 'length')" now w4 henv hreach
  -- assemble
  unfold POST
  rw [hphase1]
  simp only []
  unfold phase2
  simp only [show nanoBananaEditModel.creditCost = (8 : Int) from rfl,
    show nanoBananaEditModel.title = "Nano Banana Edit (Image)" from rfl,
    show nanoBananaEditModel.provider = "kie-market" from rfl,
    show (("kie-market" : String) == "anthropic") = false from rfl,
    Bool.false_eq_true, if_false, ite_false]
  rw [hcreate]
  simp only []
  rw [hadjust]
  simp only []
  unfold kieBranch
  rw [hkey]
  simp only [Bool.false_eq_true, if_false, ite_false]
  have hoc1 : (body.outputsCount.getD 1 == 1) = true := by
    rw [hoc]
    rfl
  rw [hoc1]
  simp only [if_true, ite_true]
  unfold runSingleInference
  simp only [show nanoBananaEditModel.kieProvider = some "market" from rfl,
    show ((some "market" : Option String) == some "veo") = false from rfl,
    show ((some "market" : Option String) == some "market") = true from rfl,
    Bool.false_eq_true, if_false, ite_false, if_true, ite_true]
  rw [hnb]
  simp only [show (("nano_banana_edit" : String) == "nano_banana_edit") = true from rfl,
    Bool.true_or, if_true, ite_true]
  rw [himg]
  simp only [if_true, ite_true]
  rw [hmf]
  simp only []
  unfold outerCatch
  simp only [ThrownError.message]
  rw [hmf2]
  simp only []
  refine ⟨rfl, ?_, ?_, ?_⟩
  · show w4.ledger.transactions = _
    rw [hw4, hw3]
    simp only []
    rw [hl1t]
  · show ledgerBalance w4.ledger = _
    rw [hw4, hw3]
    simp only [ledgerBalance, Option.getD_some]
    rw [show l1.account.getD 0 = w.ledger.account.getD 0 from hl1b]
  · show w4.events ++ [Event.recordMarkedFailed freshGenId] = _
    rw [hw4, hw3, hw2, hw1]
    simp

set_option maxRecDepth 8000 in
theorem C3_amended_edit_without_image_witness :
    (jsFalsyOpt strictCfg.kieApiKey = false ∧
     bodyNanoNoImage.modelId = "nano_banana_edit" ∧
     jsFalsyOpt bodyNanoNoImage.imageUrl = true ∧
     bodyNanoNoImage.outputsCount.getD 1 = 1 ∧
     ¬ ledgerBalance (worldWithBalance 10).ledger < 8)
  ∧ (POST strictCfg (.ok (some "user-1")) bodyNanoNoImage provSingleOk
        "req-1" "gen-1" 100 (worldWithBalance 10)).2
      = errResponse 500
          "Inference failed: Cannot read properties of undefined (reading 'length')" := by
  refine ⟨⟨rfl, rfl, rfl, rfl, by decide⟩, ?_⟩
  exact (C3_amended_edit_without_image strictCfg "user-1" bodyNanoNoImage provSingleOk
    "req-1" "gen-1" 100 (worldWithBalance 10) (by decide) rfl rfl rfl rfl rfl
    (by decide) rfl rfl (by decide) rfl).1

/-- C10: for every strict-mode request on the Kie path whose `outputsCount`
makes the batch loop run zero iterations (`outputsCount ≤ 0`), no provider
is ever invoked, yet the generation record has already been created and the
credits already debited; the batch has zero successes, so the run throws
`All <n> generations failed` and the caller receives the generic HTTP 500
carrying that message, the record is marked failed, and no refund is ever
logged (the debit stays the only appended transaction). -/
theorem C10_zero_outputs_fails_after_debit (cfg : EnvConfig) (uid : String)
    (body : InferRequestBody) (prov : ProviderEnv) (model : ModelDef)
    (requestId freshGenId : String) (now : Int) (n : Int) (w : World)
    (huid : ¬ uid = "")
    (henv : cfg.sbEnvConfigured = true) (hreach : cfg.sbReachable = true)
    (hmock : cfg.useMockInference = false)
    (hkey : jsFalsyOpt cfg.kieApiKey = false)
    (hmid : ¬ body.modelId = "") (hprompt : ¬ body.prompt = "")
    (hmodel : getModelById body.modelId = some model)
    (henabled : model.enabled = true)
    (hpa : (model.provider == "anthropic") = false)
    (hoc : body.outputsCount = some n) (hn : n ≤ 0)
    (hbal : ¬ ledgerBalance w.ledger < model.creditCost)
    (hfresh : w.gens.any (fun g => g.id == freshGenId) = false) :
    (POST cfg (.ok (some uid)) body prov requestId freshGenId now w).2
      = errResponse 500
          ("Inference failed: " ++ ("All " ++ toString n ++ " generations failed"))
  ∧ (POST cfg (.ok (some uid)) body prov requestId freshGenId now w).1.ledger.transactions
      = w.ledger.transactions ++
        [{ amount := - model.creditCost, txnType := "generation",
           description := some (model.title ++ ": " ++ body.prompt.take 100),
           generation_id := some freshGenId }]
  ∧ ledgerBalance (POST cfg (.ok (some uid)) body prov requestId freshGenId now w).1.ledger
      = ledgerBalance w.ledger + (- model.creditCost)
  ∧ (POST cfg (.ok (some uid)) body prov requestId freshGenId now w).1.events
      = w.events ++
        [Event.balanceChecked (ledgerBalance w.ledger),
         Event.recordCreated freshGenId,
         Event.debitAttempted (- model.creditCost),
         Event.debitLogged freshGenId (- model.creditCost),
         Event.recordMarkedFailed freshGenId]
  ∧ (∀ k, Event.kieTaskStarted k ∈
        (POST cfg (.ok (some uid)) body prov requestId freshGenId now w).1.events →
        Event.kieTaskStarted k ∈ w.events) := by
  rcases hgb : get_user_balance w.ledger with ⟨l1, bv⟩
  have hl1t : l1.transactions = w.ledger.transactions := by
    have h := get_user_balance_fst_transactions w.ledger
    rw [hgb] at h
    exact h
  have hl1b : ledgerBalance l1 = ledgerBalance w.ledger := by
    have h := get_user_balance_fst_balance w.ledger
    rw [hgb] at h
    exact h
  have hphase1 := phase1_known_balance_ok cfg uid body prov model w huid henv hreach
    hmock hmid hprompt hmodel henabled hbal
  rw [hgb] at hphase1
  set w1 : World :=
    { w with ledger := l1,
             events := w.events ++ [Event.balanceChecked (ledgerBalance w.ledger)] }
    with hw1
  have hfresh1 : w1.gens.any (fun g => g.id == freshGenId) = false := hfresh
  have hcreate := tryCreateGeneration_up cfg uid freshGenId
    (if model.capability == "video" then "video" else "photo") body.modelId body.prompt
    model.creditCost
    (Json.obj
      ([("params", body.paramsJson), ("requestId", Json.str requestId)] ++
       (match body.imageUrl with | some u => [("imageUrl", Json.str u)] | none => [])))
    now w1 henv hreach hfresh1
  set w2 : World :=
    { w1 with
        gens := w1.gens ++
          [{ id := freshGenId, user_id := uid,
             genType := if model.capability == "video" then "video" else "photo",
             model := body.modelId, prompt := body.prompt, status := "processing",
             result_urls := [],
             credits_used := model.creditCost,
             metadata := Json.obj
               ([("params", body.paramsJson), ("requestId", Json.str requestId)] ++
                (match body.imageUrl with
                 | some u => [("imageUrl", Json.str u)] | none => [])),
             created_at := now, updated_at := now }],
        events := w1.events ++ [Event.recordCreated freshGenId] } with hw2
  have hok : ¬ (- model.creditCost < 0 ∧
      ledgerBalance w2.ledger + (- model.creditCost) < 0) := by
    have hb2 : ledgerBalance w2.ledger = ledgerBalance w.ledger := hl1b
    rw [hb2]
    omega
  have hadjust := tryAdjustCredits_up_ok cfg uid "generation"
    (model.title ++ ": " ++ body.prompt.take 100) (some freshGenId)
    (- model.creditCost) w2 henv hreach hok
  set w3 : World :=
    { w2 with
        ledger :=
          { account := some (ledgerBalance w2.ledger + (- model.creditCost)),
            transactions := w2.ledger.transactions ++
              [{ amount := - model.creditCost, txnType := "generation",
                 description := some (model.title ++ ": " ++ body.prompt.take 100),
                 generation_id := some freshGenId }] },
        events := w2.events ++
          [Event.debitAttempted (- model.creditCost),
           Event.debitLogged ((some freshGenId).getD "") (- model.creditCost)] } with hw3
  have hmf := tryUpdateGenerationFailed_up cfg freshGenId
    ("All " ++ toString n ++ " generations failed") now w3 henv hreach
  -- zero-iteration batch: i = 0 is not < n.toNat = 0
  have hnt : n.toNat = 0 := by omega
  have hbw : batchWindows cfg prov body model freshGenId now n.toNat 0
      (⟨[], [], 0, 0⟩ : BatchAcc) w3 = .next w3 ⟨[], [], 0, 0⟩ := by
    unfold batchWindows
    have : ¬ (0 : Nat) < n.toNat := by omega
    simp [this]
  have hocg : body.outputsCount.getD 1 = n := by rw [hoc]; rfl
  have hne1 : (body.outputsCount.getD 1 == 1) = false := by
    rw [hocg]
    have : ¬ n = 1 := by omega
    simpa using this
  -- assemble
  unfold POST
  rw [hphase1]
  simp only []
  unfold phase2
  simp only []
  rw [hcreate]
  simp only []
  rw [hadjust]
  simp only []
  rw [hpa]
  simp only [Bool.false_eq_true, if_false, ite_false]
  unfold kieBranch
  rw [hkey]
  simp only [Bool.false_eq_true, if_false, ite_false]
  rw [hne1]
  simp only [Bool.false_eq_true, if_false, ite_false]
  rw [hocg, hbw]
  simp only [show ((0 : Nat) == 0) = true from rfl, if_true, ite_true]
  unfold outerCatch
  simp only [ThrownError.message]
  rw [hmf]
  simp only []
  refine ⟨trivial, ?_, ?_, ?_, ?_⟩
  · show w3.ledger.transactions = _
    rw [hw3]
    simp only []
    rw [hl1t]
  · show ledgerBalance w3.ledger = _
    rw [hw3]
    simp only [ledgerBalance, Option.getD_some]
    rw [show l1.account.getD 0 = w.ledger.account.getD 0 from hl1b]
  · show w3.events ++ [Event.recordMarkedFailed freshGenId] = _
    rw [hw3, hw2, hw1]
    simp
  · intro k hk
    have hev : w3.events ++ [Event.recordMarkedFailed freshGenId] = w.events ++
        [Event.balanceChecked (ledgerBalance w.ledger),
         Event.recordCreated freshGenId,
         Event.debitAttempted (- model.creditCost),
         Event.debitLogged freshGenId (- model.creditCost),
         Event.recordMarkedFailed freshGenId] := by
      rw [hw3, hw2, hw1]
      simp
    have hk' : Event.kieTaskStarted k ∈ w3.events ++ [Event.recordMarkedFailed freshGenId] := hk
    rw [hev] at hk'
    rcases List.mem_append.mp hk' with h | h
    · exact h
    · simp at h

/-- The registry entry for `seedream_image`. -/
def seedreamModel : ModelDef :=
  { id := "seedream_image", title := "Seedream (Image)", provider := "kie-market",
    capability := "image", enabled := true, creditCost := 8,
    kieModel := some "bytedance/seedream", kieProvider := some "market" }

def bodySeedreamZero : InferRequestBody :=
  { bodySeedream with outputsCount := some 0 }

set_option maxRecDepth 8000 in
theorem C10_zero_outputs_fails_after_debit_witness :
    (bodySeedreamZero.outputsCount = some 0 ∧ (0 : Int) ≤ 0 ∧
     ¬ ledgerBalance (worldWithBalance 10).ledger < seedreamModel.creditCost)
  ∧ (POST strictCfg (.ok (some "user-1")) bodySeedreamZero provSingleOk
        "req-2" "gen-2" 100 (worldWithBalance 10)).2
      = errResponse 500 "Inference failed: All 0 generations failed" := by
  refine ⟨⟨rfl, by decide, by decide⟩, ?_⟩
  have h := (C10_zero_outputs_fails_after_debit strictCfg "user-1" bodySeedreamZero
    provSingleOk seedreamModel "req-2" "gen-2" 100 0 (worldWithBalance 10)
    (by decide) rfl rfl rfl rfl (by decide) (by decide) rfl rfl rfl rfl
    (by decide) (by decide) rfl).1
  rw [h]
  rfl

/-! ### Batch counting (claim C2) -/

/-- Does the provider call for variant `j` succeed? -/
def kieOk (prov : ProviderEnv) (j : Nat) : Bool :=
  match prov.kie j with
  | .ok _ _ _ => true
  | .apiError _ _ => false

/-- The URLs the provider returns for variant `j` (`[]` on a failed
variant). -/
def kieUrls (prov : ProviderEnv) (j : Nat) : List String :=
  match prov.kie j with
  | .ok us _ _ => us
  | .apiError _ _ => []

/-- The per-variant outcome the `.then().catch()` wrapper records on the
plain market path. -/
def variantOutcome (prov : ProviderEnv) (j : Nat) :
    Except ThrownError SingleResult :=
  match prov.kie j with
  | .ok us t d => .ok (.inferred us t d)
  | .apiError m c => .error (.kieApi m c)

/-- The `results.forEach` accumulation, expressed directly over variant
indices of the provider oracle. -/
def accFold (prov : ProviderEnv) (acc : BatchAcc) : List Nat → BatchAcc
  | [] => acc
  | j :: js =>
      match prov.kie j with
      | .ok us t _d =>
          accFold prov
            { acc with
                allKieUrls := acc.allKieUrls ++ us,
                allTaskIds := acc.allTaskIds ++ [t],
                succeededCount := acc.succeededCount + 1 } js
      | .apiError _ _ =>
          accFold prov { acc with failedCount := acc.failedCount + 1 } js

/-- Number of variants among the first `n` whose provider call succeeds. -/
def kieSucceedCount (prov : ProviderEnv) (n : Nat) : Nat :=
  ((List.range n).filter (fun j => kieOk prov j)).length

/-- All provider URLs of the first `n` variants, in start order. -/
def kieJoinedUrls (prov : ProviderEnv) (n : Nat) : List String :=
  ((List.range n).map (kieUrls prov)).join

theorem kieUrls_of_not_ok (prov : ProviderEnv) (j : Nat)
    (h : kieOk prov j = false) : kieUrls prov j = [] := by
  unfold kieOk at h
  unfold kieUrls
  cases hk : prov.kie j with
  | ok us t d => rw [hk] at h; simp at h
  | apiError m c => rfl

theorem runVariantCaught_market (cfg : EnvConfig) (prov : ProviderEnv)
    (body : InferRequestBody) (model : ModelDef) (genId : String) (now : Int)
    (j : Nat) (w : World)
    (hmk : model.kieProvider = some "market")
    (hnb : (body.modelId == "nano_banana_edit" ||
            body.modelId == "nano_banana_pro_edit") = false) :
    runVariantCaught cfg prov body model genId now j w =
      ({ w with events := w.events ++ [Event.kieTaskStarted j] },
       variantOutcome prov j) := by
  unfold runVariantCaught runSingleInference variantOutcome
  rw [hmk, hnb]
  simp only [show ((some "market" : Option String) == some "veo") = false from rfl,
    show ((some "market" : Option String) == some "market") = true from rfl,
    Bool.false_eq_true, if_false, ite_false, if_true, ite_true]
  cases h : prov.kie j <;> simp [h]

theorem collectOutcomes_market (cfg : EnvConfig) (prov : ProviderEnv)
    (body : InferRequestBody) (model : ModelDef) (genId : String) (now : Int)
    (hmk : model.kieProvider = some "market")
    (hnb : (body.modelId == "nano_banana_edit" ||
            body.modelId == "nano_banana_pro_edit") = false) :
    ∀ (js : List Nat) (w : World),
    collectOutcomes cfg prov body model genId now js w =
      ({ w with events := w.events ++ js.map Event.kieTaskStarted },
       js.map (variantOutcome prov)) := by
  intro js
  induction js with
  | nil =>
      intro w
      show (w, []) = _
      simp
  | cons j js ih =>
      intro w
      simp only [collectOutcomes]
      rw [runVariantCaught_market cfg prov body model genId now j w hmk hnb]
      simp only []
      rw [ih]
      simp [List.append_assoc]

theorem accumulateOutcomes_pure (prov : ProviderEnv) :
    ∀ (js : List Nat) (acc : BatchAcc),
    accumulateOutcomes acc (js.map (variantOutcome prov)) =
      .ok (accFold prov acc js) := by
  intro js
  induction js with
  | nil => intro acc; rfl
  | cons j js ih =>
      intro acc
      cases h : prov.kie j with
      | ok us t d =>
          simp only [List.map_cons, variantOutcome, h, accumulateOutcomes, accFold, ih]
      | apiError m c =>
          simp only [List.map_cons, variantOutcome, h, accumulateOutcomes, accFold, ih]

theorem accFold_append (prov : ProviderEnv) :
    ∀ (xs ys : List Nat) (acc : BatchAcc),
    accFold prov acc (xs ++ ys) = accFold prov (accFold prov acc xs) ys := by
  intro xs
  induction xs with
  | nil => intro ys acc; rfl
  | cons x xs ih =>
      intro ys acc
      cases h : prov.kie x <;> simp [accFold, h, ih]

theorem accFold_succeeded (prov : ProviderEnv) :
    ∀ (js : List Nat) (acc : BatchAcc),
    (accFold prov acc js).succeededCount =
      acc.succeededCount + (js.filter (fun j => kieOk prov j)).length := by
  intro js
  induction js with
  | nil => intro acc; simp [accFold]
  | cons j js ih =>
      intro acc
      cases h : prov.kie j with
      | ok us t d =>
          have hok : kieOk prov j = true := by simp [kieOk, h]
          simp only [accFold, h, ih, List.filter_cons, hok, if_true, ite_true,
            List.length_cons]
          omega
      | apiError m c =>
          have hok : kieOk prov j = false := by simp [kieOk, h]
          simp only [accFold, h, ih, List.filter_cons, hok, Bool.false_eq_true,
            if_false, ite_false]

theorem accFold_failed (prov : ProviderEnv) :
    ∀ (js : List Nat) (acc : BatchAcc),
    (accFold prov acc js).failedCount =
      acc.failedCount + (js.filter (fun j => !(kieOk prov j))).length := by
  intro js
  induction js with
  | nil => intro acc; simp [accFold]
  | cons j js ih =>
      intro acc
      cases h : prov.kie j with
      | ok us t d =>
          have hok : kieOk prov j = true := by simp [kieOk, h]
          simp only [accFold, h, ih, List.filter_cons, hok, Bool.not_true,
            Bool.false_eq_true, if_false, ite_false]
      | apiError m c =>
          have hok : kieOk prov j = false := by simp [kieOk, h]
          simp only [accFold, h, ih, List.filter_cons, hok, Bool.not_false,
            if_true, ite_true, List.length_cons]
          omega

theorem accFold_urls (prov : ProviderEnv) :
    ∀ (js : List Nat) (acc : BatchAcc),
    (accFold prov acc js).allKieUrls =
      acc.allKieUrls ++ (js.map (kieUrls prov)).join := by
  intro js
  induction js with
  | nil => intro acc; simp [accFold]
  | cons j js ih =>
      intro acc
      cases h : prov.kie j with
      | ok us t d =>
          have hu : kieUrls prov j = us := by simp [kieUrls, h]
          simp [accFold, h, ih, hu, List.append_assoc]
      | apiError m c =>
          have hu : kieUrls prov j = [] := by simp [kieUrls, h]
          simp [accFold, h, ih, hu]

theorem filter_length_partition (p : Nat → Bool) :
    ∀ (js : List Nat),
    (js.filter p).length + (js.filter (fun j => !(p j))).length = js.length := by
  intro js
  induction js with
  | nil => rfl
  | cons j js ih =>
      cases h : p j <;>
        simp only [List.filter_cons, h, Bool.not_true, Bool.not_false,
          Bool.false_eq_true, if_true, if_false, ite_true, ite_false,
          List.length_cons] <;>
        omega

theorem kieJoinedUrls_length (prov : ProviderEnv) (n : Nat)
    (h1 : ∀ j, j < n → kieOk prov j = true → (kieUrls prov j).length = 1) :
    (kieJoinedUrls prov n).length = kieSucceedCount prov n := by
  unfold kieJoinedUrls kieSucceedCount
  have main : ∀ (js : List Nat),
      (∀ j ∈ js, kieOk prov j = true → (kieUrls prov j).length = 1) →
      ((js.map (kieUrls prov)).join).length =
        (js.filter (fun j => kieOk prov j)).length := by
    intro js
    induction js with
    | nil => intro _; rfl
    | cons j js ih =>
        intro hm
        have ihr := ih (fun a ha => hm a (List.mem_cons_of_mem _ ha))
        cases hok : kieOk prov j with
        | false =>
            have hnil := kieUrls_of_not_ok prov j hok
            simp [List.filter_cons, hok, hnil, ihr]
        | true =>
            have h1j := hm j (List.mem_cons_self _ _) hok
            simp [List.filter_cons, hok, List.length_append, h1j, ihr]
            omega
  exact main (List.range n) (fun j hj => h1 j (List.mem_range.mp hj))

theorem range'_split : ∀ (m i k : Nat),
    List.range' i m ++ List.range' (i + m) k = List.range' i (m + k) := by
  intro m
  induction m with
  | zero => intro i k; simp [List.range']
  | succ m ihm =>
      intro i k
      rw [List.range'_succ]
      rw [show i + (m + 1) = (i + 1) + m from by omega]
      rw [show m + 1 + k = (m + k) + 1 from by omega]
      rw [List.range'_succ]
      simp [ihm]

theorem batchWindows_market (cfg : EnvConfig) (prov : ProviderEnv)
    (body : InferRequestBody) (model : ModelDef) (genId : String) (now : Int)
    (hmk : model.kieProvider = some "market")
    (hnb : (body.modelId == "nano_banana_edit" ||
            body.modelId == "nano_banana_pro_edit") = false)
    (n : Nat) :
    ∀ (d i : Nat), n - i ≤ d → ∀ (acc : BatchAcc) (w : World),
    batchWindows cfg prov body model genId now n i acc w =
      .next
        { w with events := w.events ++ (List.range' i (n - i)).map Event.kieTaskStarted }
        (accFold prov acc (List.range' i (n - i))) := by
  intro d
  induction d with
  | zero =>
      intro i hle acc w
      have hni : ¬ i < n := by omega
      have h0 : n - i = 0 := by omega
      unfold batchWindows
      rw [dif_neg hni, h0]
      simp [accFold]
  | succ d ih =>
      intro i hle acc w
      by_cases hi : i < n
      · unfold batchWindows
        rw [dif_pos hi]
        have hidx : (List.range (min 3 (n - i))).map (fun j => i + j)
            = List.range' i (min 3 (n - i)) := by
          rw [List.range'_eq_map_range]
        dsimp only
        rw [hidx]
        rw [collectOutcomes_market cfg prov body model genId now hmk hnb
          (List.range' i (min 3 (n - i))) w]
        simp only []
        rw [accumulateOutcomes_pure prov (List.range' i (min 3 (n - i))) acc]
        simp only []
        rw [ih (i + 3) (by omega)]
        have hsplit : List.range' i (min 3 (n - i)) ++ List.range' (i + 3) (n - (i + 3))
            = List.range' i (n - i) := by
          by_cases h3 : n - i ≤ 3
          · have hm : min 3 (n - i) = n - i := by omega
            have h0 : n - (i + 3) = 0 := by omega
            rw [hm, h0]
            simp
          · have hm : min 3 (n - i) = 3 := by omega
            rw [hm]
            have := range'_split 3 i (n - (i + 3))
            rw [show (3 : Nat) + (n - (i + 3)) = n - i from by omega] at this
            exact this
        rw [← hsplit, accFold_append]
        simp [List.map_append, List.append_assoc]
      · have h0 : n - i = 0 := by omega
        unfold batchWindows
        rw [dif_neg hi, h0]
        simp [accFold]

theorem uploadLoop_anon (cfg : EnvConfig) (prov : ProviderEnv)
    (genId gtype : String) :
    ∀ (urls : List String) (i : Nat) (acc : List String) (w : World),
    uploadLoop cfg prov none genId gtype urls i acc w = (w, .ok (acc ++ urls)) := by
  intro urls
  induction urls with
  | nil => intro i acc w; simp [uploadLoop]
  | cons u rest ih =>
      intro i acc w
      simp only [uploadLoop]
      rw [show tryUploadToStorage cfg prov none
            (some (if (i == 0) = true then genId else genId ++ "_v" ++ toString i))
            u gtype w = (w, .ok none) from rfl]
      simp only []
      rw [ih]
      simp

theorem tryCreateGeneration_none (cfg : EnvConfig) (gid gt m p : String)
    (c : Int) (md : Json) (now : Int) (w : World) :
    tryCreateGeneration cfg none gid gt m p c md now w = (w, .ok ()) := rfl

theorem tryUpdateGenerationFailed_envMissing (cfg : EnvConfig) (gid m : String)
    (now : Int) (w : World) (henvm : cfg.sbEnvConfigured = false) :
    tryUpdateGenerationFailed cfg (some gid) m now w =
      (w, .error { message := "Supabase environment variables not configured",
                   reason := .missing_env }) := by
  unfold tryUpdateGenerationFailed runSbOp
  rw [henvm]
  simp [wrapSupabaseOperation]

theorem tryUpdateGenerationSuccess_envMissing (cfg : EnvConfig) (gid : String)
    (urls : List String) (md : Json) (now : Int) (w : World)
    (henvm : cfg.sbEnvConfigured = false) :
    tryUpdateGenerationSuccess cfg (some gid) urls md now w =
      (w, .error { message := "Supabase environment variables not configured",
                   reason := .missing_env }) := by
  unfold tryUpdateGenerationSuccess runSbOp
  rw [henvm]
  simp [wrapSupabaseOperation]

theorem phase1_anon_degraded (cfg : EnvConfig) (body : InferRequestBody)
    (prov : ProviderEnv) (model : ModelDef) (w : World)
    (hopt : cfg.supabaseOptional = true)
    (hanon : cfg.allowAnonInfer = false)
    (hmock : cfg.useMockInference = false)
    (hmid : ¬ body.modelId = "") (hprompt : ¬ body.prompt = "")
    (hmodel : getModelById body.modelId = some model)
    (henabled : model.enabled = true) :
    phase1 cfg (.ok none) body prov w =
      .next w
        { userId := none, model := model, currentBalance := none,
          generationType := if model.capability == "video" then "video" else "photo",
          supabaseSkipped := false, skipReason := none } := by
  have hmidb : (body.modelId == "") = false := by simpa using hmid
  have hpromptb : (body.prompt == "") = false := by simpa using hprompt
  unfold phase1
  simp only [step1Auth, stepDevMode, jsFalsyOpt, hanon, hopt, hmidb, hpromptb,
    hmock, hmodel, henabled, Bool.false_and, Bool.not_true, Bool.false_or,
    Bool.false_eq_true, if_false, ite_false, if_true, ite_true, not_true,
    not_false_iff, Bool.not_false]
  rfl

/-- C2 (amended): on the anonymous degraded batch path
(`INFER_SUPABASE_OPTIONAL=true`, Supabase env vars absent) with a plain
market model and `outputsCount = n ≥ 2`, the request fails (generic 500
`All <n> generations failed`) iff *all* `n` variants fail; if `k ≠ 0`
variants succeed the response is a success with
`meta.succeededCount = k` and `meta.failedCount = n − k`, but its `urls`
list is the *concatenation of every successful variant's URL list* — it has
exactly `k` entries only under the extra proviso that each successful
variant returns exactly one URL (a multi-URL success yields more than `k`;
see the counterexample). -/
theorem C2_amended_batch_counting (cfg : EnvConfig) (body : InferRequestBody)
    (prov : ProviderEnv) (model : ModelDef) (requestId genId : String)
    (now : Int) (n : Int) (w : World)
    (hopt : cfg.supabaseOptional = true)
    (henvm : cfg.sbEnvConfigured = false)
    (hanon : cfg.allowAnonInfer = false)
    (hmock : cfg.useMockInference = false)
    (hkey : jsFalsyOpt cfg.kieApiKey = false)
    (hmid : ¬ body.modelId = "") (hprompt : ¬ body.prompt = "")
    (hmodel : getModelById body.modelId = some model)
    (henabled : model.enabled = true)
    (hpa : (model.provider == "anthropic") = false)
    (hmk : model.kieProvider = some "market")
    (hnb : (body.modelId == "nano_banana_edit" ||
            body.modelId == "nano_banana_pro_edit") = false)
    (hoc : body.outputsCount = some n) (hn : 2 ≤ n) :
    (kieSucceedCount prov n.toNat = 0 →
      (POST cfg (.ok none) body prov requestId genId now w).2
        = errResponse 500
            ("Inference failed: " ++ ("All " ++ toString n ++ " generations failed")))
  ∧ (¬ kieSucceedCount prov n.toNat = 0 →
      (POST cfg (.ok none) body prov requestId genId now w).2.success = true
    ∧ (POST cfg (.ok none) body prov requestId genId now w).2.urls
        = some (kieJoinedUrls prov n.toNat)
    ∧ ((POST cfg (.ok none) body prov requestId genId now w).2.meta.map
          (fun m => m.succeededCount))
        = some (some (kieSucceedCount prov n.toNat : Int))
    ∧ ((POST cfg (.ok none) body prov requestId genId now w).2.meta.map
          (fun m => m.failedCount))
        = some (some ((n.toNat - kieSucceedCount prov n.toNat : Nat) : Int)))
  ∧ ((∀ j, j < n.toNat → kieOk prov j = true → (kieUrls prov j).length = 1) →
      (kieJoinedUrls prov n.toNat).length = kieSucceedCount prov n.toNat) := by
  have hph1 := phase1_anon_degraded cfg body prov model w hopt hanon hmock hmid
    hprompt hmodel henabled
  have hocg : body.outputsCount.getD 1 = n := by rw [hoc]; rfl
  have hne1 : (body.outputsCount.getD 1 == 1) = false := by
    rw [hocg]
    have hne : ¬ n = 1 := by omega
    simpa using hne
  have hbw := batchWindows_market cfg prov body model genId now hmk hnb n.toNat
    n.toNat 0 (by omega)
  simp only [Nat.sub_zero] at hbw
  have hsucc : (accFold prov ⟨[], [], 0, 0⟩ (List.range' 0 n.toNat)).succeededCount
      = kieSucceedCount prov n.toNat := by
    rw [accFold_succeeded]
    simp [kieSucceedCount, List.range_eq_range']
  have hfail : (accFold prov ⟨[], [], 0, 0⟩ (List.range' 0 n.toNat)).failedCount
      = n.toNat - kieSucceedCount prov n.toNat := by
    rw [accFold_failed]
    have hp : ((List.range' 0 n.toNat).filter (fun j => kieOk prov j)).length +
        ((List.range' 0 n.toNat).filter (fun j => !(kieOk prov j))).length
        = (List.range' 0 n.toNat).length :=
      filter_length_partition (fun j => kieOk prov j) (List.range' 0 n.toNat)
    have hlen : (List.range' 0 n.toNat).length = n.toNat := List.length_range' 0 1 n.toNat
    have hk : kieSucceedCount prov n.toNat
        = ((List.range' 0 n.toNat).filter (fun j => kieOk prov j)).length := by
      simp [kieSucceedCount, List.range_eq_range']
    simp only [show (⟨[], [], 0, 0⟩ : BatchAcc).failedCount = 0 from rfl]
    omega
  have hurls : (accFold prov ⟨[], [], 0, 0⟩ (List.range' 0 n.toNat)).allKieUrls
      = kieJoinedUrls prov n.toNat := by
    rw [accFold_urls]
    simp [kieJoinedUrls, List.range_eq_range']
  have hpost : POST cfg (.ok none) body prov requestId genId now w
      = (match kieBranch cfg prov body
            { userId := none, model := model, currentBalance := none,
              generationType :=
                if model.capability == "video" then "video" else "photo",
              supabaseSkipped := false, skipReason := none }
            genId now none false none w with
         | .respond w r => (w, r)
         | .raise w e => outerCatch cfg (some genId) now w e
         | .next w r => (w, r)) := by
    unfold POST
    rw [hph1]
    simp only []
    unfold phase2
    simp only []
    rw [tryCreateGeneration_none]
    simp only []
    rw [hpa]
    simp only [Bool.false_eq_true, if_false, ite_false]
  by_cases hk0 : kieSucceedCount prov n.toNat = 0
  · refine ⟨fun _ => ?_, fun hc => absurd hk0 hc,
      fun h1 => kieJoinedUrls_length prov n.toNat h1⟩
    rw [hpost]
    unfold kieBranch
    rw [hkey]
    simp only [Bool.false_eq_true, if_false, ite_false]
    rw [hne1]
    simp only [Bool.false_eq_true, if_false, ite_false]
    rw [hocg]
    rw [hbw]
    simp only []
    rw [show ((accFold prov ⟨[], [], 0, 0⟩ (List.range' 0 n.toNat)).succeededCount
          == 0) = true from by rw [hsucc, hk0]; rfl]
    simp only [if_true, ite_true]
    rfl
  · refine ⟨fun hc => absurd hc hk0, fun _ => ?_,
      fun h1 => kieJoinedUrls_length prov n.toNat h1⟩
    have hsEq : ((accFold prov ⟨[], [], 0, 0⟩ (List.range' 0 n.toNat)).succeededCount
        == 0) = false := by
      rw [hsucc]
      simpa using hk0
    have hrun : POST cfg (.ok none) body prov requestId genId now w
        = ({ w with
               events := w.events ++ (List.range' 0 n.toNat).map Event.kieTaskStarted },
           { status := 200, success := true,
             urls := some (accFold prov ⟨[], [], 0, 0⟩
               (List.range' 0 n.toNat)).allKieUrls,
             text := none, error := none, newBalance := none,
             meta := some
               { modelId := body.modelId, provider := some "kie",
                 generationId := if genId == "" then none else some genId,
                 taskIds := (accFold prov ⟨[], [], 0, 0⟩
                   (List.range' 0 n.toNat)).allTaskIds,
                 duration := prov.batchWallMs,
                 outputsCountM := some n,
                 succeededCount := some ((accFold prov ⟨[], [], 0, 0⟩
                   (List.range' 0 n.toNat)).succeededCount : Int),
                 failedCount := some ((accFold prov ⟨[], [], 0, 0⟩
                   (List.range' 0 n.toNat)).failedCount : Int),
                 mock := false, supabaseSkipped := true,
                 skipReason := some .missing_env } }) := by
      rw [hpost]
      unfold kieBranch
      rw [hkey]
      simp only [Bool.false_eq_true, if_false, ite_false]
      rw [hne1]
      simp only [Bool.false_eq_true, if_false, ite_false]
      rw [hocg]
      rw [hbw]
      simp only []
      rw [hsEq]
      simp only [Bool.false_eq_true, if_false, ite_false]
      unfold kieFinish
      rw [uploadLoop_anon]
      simp only [List.nil_append]
      rw [tryUpdateGenerationSuccess_envMissing cfg genId _ _ now _ henvm]
      simp only []
      rw [hopt]
      simp only [if_true, ite_true]
    rw [hrun]
    refine ⟨rfl, ?_, ?_, ?_⟩
    · show some (accFold prov ⟨[], [], 0, 0⟩ (List.range' 0 n.toNat)).allKieUrls = _
      rw [hurls]
    · show some (some ((accFold prov ⟨[], [], 0, 0⟩
          (List.range' 0 n.toNat)).succeededCount : Int)) = _
      rw [hsucc]
    · show some (some ((accFold prov ⟨[], [], 0, 0⟩
          (List.range' 0 n.toNat)).failedCount : Int)) = _
      rw [hfail]

def bodySeedreamTwo : InferRequestBody :=
  { bodySeedream with outputsCount := some 2 }

/-- Provider oracle: variant 0 succeeds with two URLs, every other variant
with one. -/
def provTwoThenOne : ProviderEnv :=
  { kie := fun j => if j == 0 then .ok ["u1", "u2"] "t0" 10 else .ok ["u3"] "t1" 10,
    anthropic := .ok "hello", anthropicDuration := 500, batchWallMs := 3000,
    fetchOk := fun _ => true, mockTaskId := "mock-task" }

set_option maxRecDepth 8000 in
/-- C2 counterexample: a degraded anonymous batch of N = 2 where both
variants succeed (`k = 2`) but variant 0 returns two URLs: the response is
a success with `meta.succeededCount = 2` and `meta.failedCount = 0`, yet
its `urls` list has three entries, not `k = 2` — "the response contains
exactly k urls" is false at this input. -/
theorem C2_cex_success_with_extra_urls :
    (POST degradedEnvMissingCfg (.ok none) bodySeedreamTwo provTwoThenOne
        "req-1" "gen-1" 100 emptyWorld).2.success = true
  ∧ ((POST degradedEnvMissingCfg (.ok none) bodySeedreamTwo provTwoThenOne
        "req-1" "gen-1" 100 emptyWorld).2.meta.map (fun m => m.succeededCount))
      = some (some 2)
  ∧ ((POST degradedEnvMissingCfg (.ok none) bodySeedreamTwo provTwoThenOne
        "req-1" "gen-1" 100 emptyWorld).2.meta.map (fun m => m.failedCount))
      = some (some 0)
  ∧ (POST degradedEnvMissingCfg (.ok none) bodySeedreamTwo provTwoThenOne
        "req-1" "gen-1" 100 emptyWorld).2.urls = some ["u1", "u2", "u3"]
  ∧ ¬ ((POST degradedEnvMissingCfg (.ok none) bodySeedreamTwo provTwoThenOne
        "req-1" "gen-1" 100 emptyWorld).2.urls.map List.length = some 2) := by
  have hph1 := phase1_anon_degraded degradedEnvMissingCfg bodySeedreamTwo provTwoThenOne
    seedreamModel emptyWorld rfl rfl rfl (by decide) (by decide) rfl rfl
  have hbw := batchWindows_market degradedEnvMissingCfg provTwoThenOne bodySeedreamTwo
    seedreamModel "gen-1" 100 rfl (by decide) 2 2 0 (by decide) ⟨[], [], 0, 0⟩ emptyWorld
  simp only [Nat.sub_zero] at hbw
  have hrun : POST degradedEnvMissingCfg (.ok none) bodySeedreamTwo provTwoThenOne
      "req-1" "gen-1" 100 emptyWorld
      = ({ emptyWorld with
             events := (List.range' 0 2).map Event.kieTaskStarted },
         { status := 200, success := true, urls := some ["u1", "u2", "u3"],
           text := none, error := none, newBalance := none,
           meta := some
             { modelId := "seedream_image", provider := some "kie",
               generationId := some "gen-1", taskIds := ["t0", "t1"],
               duration := 3000, outputsCountM := some 2,
               succeededCount := some 2, failedCount := some 0,
               mock := false, supabaseSkipped := true,
               skipReason := some .missing_env } }) := by
    unfold POST
    rw [hph1]
    simp only []
    unfold phase2
    simp only []
    rw [tryCreateGeneration_none]
    simp only []
    rw [show (seedreamModel.provider == "anthropic") = false from rfl]
    simp only [Bool.false_eq_true, if_false, ite_false]
    unfold kieBranch
    rw [show jsFalsyOpt degradedEnvMissingCfg.kieApiKey = false from rfl]
    simp only [Bool.false_eq_true, if_false, ite_false]
    rw [show (bodySeedreamTwo.outputsCount.getD 1 == 1) = false from rfl]
    simp only [Bool.false_eq_true, if_false, ite_false]
    rw [show (bodySeedreamTwo.outputsCount.getD 1).toNat = 2 from rfl]
    rw [hbw]
    simp only []
    rw [show ((accFold provTwoThenOne ⟨[], [], 0, 0⟩
          (List.range' 0 2)).succeededCount == 0) = false from by decide]
    simp only [Bool.false_eq_true, if_false, ite_false]
    unfold kieFinish
    rw [uploadLoop_anon]
    simp only [List.nil_append]
    rw [tryUpdateGenerationSuccess_envMissing degradedEnvMissingCfg "gen-1" _ _ 100 _ rfl]
    simp only []
    rw [show degradedEnvMissingCfg.supabaseOptional = true from rfl]
    simp only [if_true, ite_true]
    rfl
  rw [hrun]
  refine ⟨rfl, rfl, rfl, rfl, ?_⟩
  intro h
  exact absurd h (by decide)

set_option maxRecDepth 8000 in
theorem C2_amended_batch_counting_witness :
    (degradedEnvMissingCfg.supabaseOptional = true ∧
     bodySeedreamTwo.outputsCount = some 2 ∧ (2 : Int) ≤ 2 ∧
     ¬ kieSucceedCount provTwoThenOne (2 : Int).toNat = 0)
  ∧ (POST degradedEnvMissingCfg (.ok none) bodySeedreamTwo provTwoThenOne
        "req-9" "gen-9" 100 emptyWorld).2.success = true := by
  refine ⟨⟨rfl, rfl, by decide, by decide⟩, ?_⟩
  exact ((C2_amended_batch_counting degradedEnvMissingCfg bodySeedreamTwo provTwoThenOne
    seedreamModel "req-9" "gen-9" 100 2 emptyWorld rfl rfl rfl rfl rfl (by decide)
    (by decide) rfl rfl rfl rfl (by decide) rfl (by decide)).2.1 (by decide)).1

end LensRoom
